import Mathlib

/-!
Verification of the thin-mode protocol engine of python-oracledb.

The definitions below are a shallow embedding of the code in
`src/oracledb/impl/thin/protocol.pyx` (classes `BaseProtocol` and
`Protocol`), `src/oracledb/impl/thin/utils.pyx` (`ConnectConstants` and
`_get_connect_data`) and the `DbType` registry at the bottom of
`protocol.pyx`.  I/O performed by the engine (packets received from the
server, outcomes of socket operations, the behaviour of the message
codecs, which live outside the embedded files) is supplied by explicit
environment records; the engine's observable behaviour is captured as a
trace of actions plus a Python-style outcome (normal return or raised
exception).
-/

namespace OracleThin

/-- Modelled from the spec: TNS packet type numbers (§4.D of the spec:
CONNECT(1), ACCEPT(2), REFUSE(4), REDIRECT(5), DATA(6), RESEND(11),
MARKER(12)); the constants themselves live in `impl/thin/constants.pxi`,
which is not part of the embedded sources. -/
def TNS_PACKET_TYPE_CONNECT : Nat := 1

/-- Modelled from the spec: ACCEPT packet type. -/
def TNS_PACKET_TYPE_ACCEPT : Nat := 2

/-- Modelled from the spec: REFUSE packet type. -/
def TNS_PACKET_TYPE_REFUSE : Nat := 4

/-- Modelled from the spec: REDIRECT packet type. -/
def TNS_PACKET_TYPE_REDIRECT : Nat := 5

/-- Modelled from the spec: DATA packet type. -/
def TNS_PACKET_TYPE_DATA : Nat := 6

/-- Modelled from the spec: MARKER packet type. -/
def TNS_PACKET_TYPE_MARKER : Nat := 12

/-- Modelled from the spec: marker types (§4.D: INTERRUPT=1, RESET=2,
BREAK=3). -/
def TNS_MARKER_TYPE_INTERRUPT : Nat := 1

/-- Modelled from the spec: RESET marker type. -/
def TNS_MARKER_TYPE_RESET : Nat := 2

/-- Modelled from the spec: BREAK marker type. -/
def TNS_MARKER_TYPE_BREAK : Nat := 3

/-- Modelled from the spec: the REDIRECT packet flag set on the connect
packet replayed after a redirect.  Only its identity matters to the
claims, never its numeric value. -/
def TNS_PACKET_FLAG_REDIRECT : Nat := 4

/-- Modelled from the spec: packet flag demanding TLS renegotiation. -/
def TNS_PACKET_FLAG_TLS_RENEG : Nat := 8

/-- Modelled from the spec: bit of `message.call_status` recording that a
transaction is in progress. -/
def TNS_TXN_IN_PROGRESS : Nat := 2

/-- A TNS packet as observed by the engine: its packet type byte, and (for
MARKER packets) the marker type byte that `_reset` reads from its
payload. -/
structure Packet where
  packetType : Nat
  markerType : Nat
deriving DecidableEq, Repr

/-- How one of the I/O / codec steps inside `_process_message` terminates:
normally, with `socket.timeout`, or with any other exception. -/
inductive StepRes
  | ok
  | timeout
  | exc
deriving DecidableEq, Repr

/-- Python exceptions raised by the engine.  `oraError` carries the Oracle
error number, offset and message together with the exception class
computed by `get_exception_class`. -/
inductive PyExc
  | socketTimeout
  | otherExc
  | callTimeoutExceeded (timeout : Nat)
  | connectionClosed (context : String)
  | oraError (num : Nat) (pos : Nat) (message : Option String) (excClass : Nat)
  | invalidRedirectData (data : List Char)
  | serverVersionNotSupported
  | oracleTypeNotSupported (num : Nat)
  | indexError
  | outOfEnv
deriving DecidableEq, Repr

/-- The negotiated `Capabilities` fields read by the embedded code. -/
structure Capabilities where
  supportsOob : Bool
  protocolVersion : Nat
  charsetId : Nat
  ncharsetId : Nat
deriving DecidableEq, Repr

/-- `message.error_info` fields used by the engine. -/
structure ErrorInfo where
  num : Nat
  pos : Nat
  message : Option String
deriving DecidableEq, Repr

/-- The cross-cutting fields of a `Message` that `_process_message`
reads and writes. -/
structure Msg where
  callTimeout : Nat
  errorOccurred : Bool
  retry : Bool
  flushOutBinds : Bool
  callStatus : Nat
  errorInfo : ErrorInfo
deriving DecidableEq, Repr

/-- Mutable state of the protocol engine, as the fields of `BaseProtocol`
and its buffers that the embedded code touches.  The `Transport`
references held by the protocol object and by its read/write buffers are
modelled as presence flags (`true` = the reference is not `None`);
`readBufInnerTransport` models `_read_buf._transport._transport`, the
socket inside the transport object seen through the read buffer. -/
structure ProtocolState where
  caps : Capabilities
  inConnect : Bool
  breakInProgress : Bool
  txnInProgress : Bool
  transport : Bool
  readBufTransport : Bool
  readBufInnerTransport : Bool
  writeBufTransport : Bool
  packetSent : Bool
  currentPacket : Packet
deriving DecidableEq, Repr

/-- Which `WriteBuffer` a marker is written through: the connection's
regular write buffer, or a freshly constructed one (as `_break_external`
builds). -/
inductive WBuf
  | regular
  | fresh
deriving DecidableEq, Repr

/-- Observable actions of the engine, in the order they are performed. -/
inductive Action
  | resetPackets
  | sendMessage
  | oobBreak
  | marker (buf : WBuf) (markerType : Nat)
  | waitForPackets
  | flushRequest
  | processMsg
  | disconnect
deriving DecidableEq, Repr

/-- `BaseProtocol._send_marker` (protocol.pyx lines 92-101): writes a
3-byte MARKER request through the given buffer.  Modelled as the single
trace action naming the buffer and the marker type. -/
def sendMarker (buf : WBuf) (markerType : Nat) : List Action :=
  [Action.marker buf markerType]

/-- `BaseProtocol._break_external` (protocol.pyx lines 56-69): when no
break is already in progress, record one and send an out-of-band break
when the capabilities support OOB, otherwise an INTERRUPT marker through
a freshly created `WriteBuffer`. -/
def breakExternal (s : ProtocolState) : ProtocolState × List Action :=
  if !s.breakInProgress then
    ({ s with breakInProgress := true },
     if s.caps.supportsOob then [Action.oobBreak]
     else sendMarker WBuf.fresh TNS_MARKER_TYPE_INTERRUPT)
  else (s, [])

/-- `BaseProtocol._force_close` (protocol.pyx lines 80-90): when a
transport is present, detach it from the protocol object and from both
buffers, then disconnect the socket. -/
def forceClose (s : ProtocolState) : ProtocolState × List Action :=
  if s.transport then
    ({ s with transport := false, readBufTransport := false,
              readBufInnerTransport := false, writeBufTransport := false },
     [Action.disconnect])
  else (s, [])

/-- True of a MARKER packet. -/
def isMarker (p : Packet) : Bool :=
  p.packetType == TNS_PACKET_TYPE_MARKER

/-- True of a MARKER packet whose marker type is RESET. -/
def isResetMarker (p : Packet) : Bool :=
  p.packetType == TNS_PACKET_TYPE_MARKER && p.markerType == TNS_MARKER_TYPE_RESET

/-- First loop of `Protocol._reset` (protocol.pyx lines 462-470): examine
the current packet; a MARKER packet has its marker type read and stops
the loop when it is RESET; any other packet is discarded and the next
packet awaited.  Returns the RESET marker packet and the unconsumed part
of the incoming packet queue, or `none` when the supply of packets in the
environment is exhausted. -/
def resetDrainToResetMarker (current : Packet) (queue : List Packet) :
    Option (Packet × List Packet) :=
  if isResetMarker current then some (current, queue)
  else
    match queue with
    | [] => none
    | p :: rest => resetDrainToResetMarker p rest

/-- Second loop of `Protocol._reset` (protocol.pyx lines 477-479): while
the current packet is still a MARKER packet, await the next packet; stops
at the first non-marker packet (the error packet that follows). -/
def resetSkipMarkers (current : Packet) (queue : List Packet) :
    Option (Packet × List Packet) :=
  if isMarker current then
    match queue with
    | [] => none
    | p :: rest => resetSkipMarkers p rest
  else some (current, queue)

/-- `Protocol._reset` (protocol.pyx lines 456-480): send a RESET marker,
discard incoming packets until a MARKER of type RESET is seen, skip any
further MARKER packets, leave the following (error) packet current, and
clear `_break_in_progress`.  `none` models the I/O failure occurring when
the environment supplies no further packet. -/
def resetEngine (s : ProtocolState) (queue : List Packet) :
    Option (ProtocolState × List Action × List Packet) :=
  match resetDrainToResetMarker s.currentPacket queue with
  | none => none
  | some (resetMarker, q1) =>
    match resetSkipMarkers resetMarker q1 with
    | none => none
    | some (errPacket, q2) =>
      some ({ s with currentPacket := errPacket, breakInProgress := false },
            sendMarker WBuf.regular TNS_MARKER_TYPE_RESET, q2)

/-- Environment for one call of `_receive_packet`: the outcome of
`wait_for_packets_sync` and, on success, the packet that became current,
together with the length/content of the refusal message read from a
REFUSE packet. -/
structure RecvEnv where
  res : StepRes
  packet : Packet
  refuseLen : Nat
  refuseMsg : String
deriving DecidableEq, Repr

/-- `Protocol._receive_packet` (protocol.pyx lines 427-443): await a
packet; when it is a MARKER packet run `_reset`; when it is a REFUSE
packet clear the write buffer's `_packet_sent` flag and record the
refusal message (or `None` when its length is zero) in
`message.error_info`.  Returns the new state, message, unconsumed queue,
trace and, in the last component, the exception raised if any. -/
def receivePacketEngine (s : ProtocolState) (m : Msg) (env : RecvEnv)
    (queue : List Packet) :
    ProtocolState × Msg × List Packet × List Action × Option PyExc :=
  match env.res with
  | StepRes.timeout => (s, m, queue, [Action.waitForPackets], some PyExc.socketTimeout)
  | StepRes.exc => (s, m, queue, [Action.waitForPackets], some PyExc.otherExc)
  | StepRes.ok =>
    let s1 := { s with currentPacket := env.packet }
    if env.packet.packetType == TNS_PACKET_TYPE_MARKER then
      match resetEngine s1 queue with
      | none => (s1, m, queue, [Action.waitForPackets], some PyExc.otherExc)
      | some (s2, tr, q2) => (s2, m, q2, Action.waitForPackets :: tr, none)
    else if env.packet.packetType == TNS_PACKET_TYPE_REFUSE then
      let s2 := { s1 with packetSent := false }
      let m2 := { m with errorInfo :=
        { m.errorInfo with message :=
            if env.refuseLen == 0 then none else some env.refuseMsg } }
      (s2, m2, queue, [Action.waitForPackets], none)
    else (s1, m, queue, [Action.waitForPackets], none)

/-- Environment for one invocation of `Protocol._process_message`: the
outcomes of the `send` / first receive / `process` steps, the packets the
server has queued for any marker drain, the message fields as left by a
successful `message.process` (the codecs live outside the embedded
files), and the receive environments of the timeout-recovery path, of the
flush-out-binds path and of the break-in-progress path. -/
structure AttemptEnv where
  sendRes : StepRes
  sentPacket : Bool
  recv : RecvEnv
  queue : List Packet
  processRes : StepRes
  pmsg : Msg
  recovRecv : RecvEnv
  flushProcessRes : StepRes
  flushPmsg : Msg
  breakRecv : RecvEnv
  breakProcessRes : StepRes
  breakPmsg : Msg
deriving Repr

/-- The `try` body of `Protocol._process_message` (protocol.pyx lines
357-361): `reset_packets`, `message.send` (a fully sent request marks
`_packet_sent`; on failure the environment decides whether a packet had
already gone out), `_receive_packet`, `message.process`.  Returns the
state, message and queue as left when the body finished or raised, the
trace, and the raised exception if any. -/
def runBody (e : AttemptEnv) (s : ProtocolState) (m : Msg) :
    ProtocolState × Msg × List Packet × List Action × Option PyExc :=
  match e.sendRes with
  | StepRes.timeout =>
    ({ s with packetSent := s.packetSent || e.sentPacket }, m, e.queue,
     [Action.resetPackets, Action.sendMessage], some PyExc.socketTimeout)
  | StepRes.exc =>
    ({ s with packetSent := s.packetSent || e.sentPacket }, m, e.queue,
     [Action.resetPackets, Action.sendMessage], some PyExc.otherExc)
  | StepRes.ok =>
    let s1 := { s with packetSent := true }
    let (s2, m2, q2, tr2, exc2) := receivePacketEngine s1 m e.recv e.queue
    match exc2 with
    | some ex =>
      (s2, m2, q2, Action.resetPackets :: Action.sendMessage :: tr2, some ex)
    | none =>
      match e.processRes with
      | StepRes.timeout =>
        (s2, m2, q2,
         Action.resetPackets :: Action.sendMessage :: tr2 ++ [Action.processMsg],
         some PyExc.socketTimeout)
      | StepRes.exc =>
        (s2, m2, q2,
         Action.resetPackets :: Action.sendMessage :: tr2 ++ [Action.processMsg],
         some PyExc.otherExc)
      | StepRes.ok =>
        (s2, e.pmsg, q2,
         Action.resetPackets :: Action.sendMessage :: tr2 ++ [Action.processMsg],
         none)

/-- One attempt of `Protocol._process_message` (protocol.pyx lines
355-400) up to but excluding the final error check: the `try` body, the
`socket.timeout` handler (break, one recovery receive, raise
`ERR_CALL_TIMEOUT_EXCEEDED`; a second timeout force-closes and raises
`ERR_CONNECTION_CLOSED`), the generic exception handler (BREAK marker
plus `_reset` when past connect with a request packet sent and a live
read transport), the flush-out-binds block and the break-in-progress
block, ending with the `_txn_in_progress` update.  The final component is
the exception raised, if any. -/
def attemptPhase (e : AttemptEnv) (s : ProtocolState) (m : Msg) :
    ProtocolState × Msg × List Action × Option PyExc :=
  let timeout := m.callTimeout
  let (s1, m1, q1, tr1, exc1) := runBody e s m
  match exc1 with
  | some PyExc.socketTimeout =>
    let (s2, tr2) := breakExternal s1
    let (s3, m3, _q3, tr3, exc3) := receivePacketEngine s2 m1 e.recovRecv q1
    (match exc3 with
     | some PyExc.socketTimeout =>
       let (s4, tr4) := forceClose s3
       (s4, m3, tr1 ++ tr2 ++ tr3 ++ tr4,
        some (PyExc.connectionClosed
          "socket timed out while recovering from previous socket timeout"))
     | some ex => (s3, m3, tr1 ++ tr2 ++ tr3, some ex)
     | none =>
       ({ s3 with breakInProgress := false }, m3, tr1 ++ tr2 ++ tr3,
        some (PyExc.callTimeoutExceeded timeout)))
  | some ex =>
    if !s1.inConnect && s1.packetSent && s1.readBufTransport
        && s1.readBufInnerTransport then
      let tr2 := sendMarker WBuf.regular TNS_MARKER_TYPE_BREAK
      match resetEngine s1 q1 with
      | none => (s1, m1, tr1 ++ tr2, some PyExc.otherExc)
      | some (s2, tr3, _q2) => (s2, m1, tr1 ++ tr2 ++ tr3, some ex)
    else (s1, m1, tr1, some ex)
  | none =>
    -- flush_out_binds block (lines 383-388)
    let flushStep :
        ProtocolState × Msg × List Packet × List Action × Option PyExc :=
      if m1.flushOutBinds then
        match resetEngine s1 q1 with
        | none => (s1, m1, q1, [Action.flushRequest], some PyExc.otherExc)
        | some (s2, tr2, q2) =>
          match e.flushProcessRes with
          | StepRes.timeout =>
            (s2, m1, q2, Action.flushRequest :: tr2 ++ [Action.processMsg],
             some PyExc.socketTimeout)
          | StepRes.exc =>
            (s2, m1, q2, Action.flushRequest :: tr2 ++ [Action.processMsg],
             some PyExc.otherExc)
          | StepRes.ok =>
            (s2, e.flushPmsg, q2, Action.flushRequest :: tr2 ++ [Action.processMsg],
             none)
      else (s1, m1, q1, [], none)
    let (sF, mF, qF, trF, excF) := flushStep
    match excF with
    | some ex => (sF, mF, tr1 ++ trF, some ex)
    | none =>
      -- break_in_progress block (lines 389-400)
      let breakStep : ProtocolState × Msg × List Action × Option PyExc :=
        if sF.breakInProgress then
          let trI :=
            if sF.caps.supportsOob then
              sendMarker WBuf.regular TNS_MARKER_TYPE_INTERRUPT
            else []
          let (sB, mB, _qB, trB, excB) :=
            receivePacketEngine sF mF e.breakRecv qF
          match excB with
          | some PyExc.socketTimeout =>
            (sB, mB, trI ++ trB,
             some (PyExc.connectionClosed
               "socket timed out while awaiting break response from server"))
          | some ex => (sB, mB, trI ++ trB, some ex)
          | none =>
            match e.breakProcessRes with
            | StepRes.timeout =>
              (sB, mB, trI ++ trB ++ [Action.processMsg], some PyExc.socketTimeout)
            | StepRes.exc =>
              (sB, mB, trI ++ trB ++ [Action.processMsg], some PyExc.otherExc)
            | StepRes.ok =>
              ({ sB with breakInProgress := false }, e.breakPmsg,
               trI ++ trB ++ [Action.processMsg], none)
        else (sF, mF, [], none)
      let (sK, mK, trK, excK) := breakStep
      match excK with
      | some ex => (sK, mK, tr1 ++ trF ++ trK, some ex)
      | none =>
        let sT := { sK with
          txnInProgress := (mK.callStatus &&& TNS_TXN_IN_PROGRESS) != 0 }
        (sT, mK, tr1 ++ trF ++ trK, none)

/-- `Protocol._process_message` (protocol.pyx lines 355-415): one attempt
per environment entry; when the attempt completes and the message records
a server error, a codec-set `retry` flag clears the error and re-enters
`_process_message` with the same message, otherwise an exception of the
class computed by `get_exception_class` from the Oracle error number is
raised, after force-closing the connection when the error is classified
as session-dead.  `getExc` and `isDead` model `get_exception_class` and
`errors._Error.is_session_dead`, both implemented outside the embedded
files. -/
def processMessage (getExc : Nat → Nat) (isDead : Nat → Bool) :
    List AttemptEnv → ProtocolState → Msg →
    ProtocolState × Msg × List Action × Option PyExc
  | [], s, m => (s, m, [], some PyExc.outOfEnv)
  | e :: rest, s, m =>
    let (s1, m1, tr1, exc1) := attemptPhase e s m
    match exc1 with
    | some ex => (s1, m1, tr1, some ex)
    | none =>
      if m1.errorOccurred then
        if m1.retry then
          let (s2, m2, tr2, out) :=
            processMessage getExc isDead rest s1 { m1 with errorOccurred := false }
          (s2, m2, tr1 ++ tr2, out)
        else
          let (s2, tr2) :=
            if isDead m1.errorInfo.num then forceClose s1 else (s1, [])
          (s2, m1, tr1 ++ tr2,
           some (PyExc.oraError m1.errorInfo.num m1.errorInfo.pos
             m1.errorInfo.message (getExc m1.errorInfo.num)))
      else (s1, m1, tr1, none)

/-- The fields of a `ConnectMessage` assigned when `_connect_phase_one`
creates a fresh connect message (protocol.pyx lines 196-204).  Strings
are modelled as lists of characters. -/
structure ConnectMsgFields where
  host : List Char
  port : Nat
  connectString : List Char
  packetFlags : Nat
deriving DecidableEq, Repr

/-- Observable actions of `_connect_phase_one`. -/
inductive P1Action
  | tcpConnect (host : List Char) (port : Nat)
  | processConnect (m : ConnectMsgFields)
  | renegotiateTls
deriving DecidableEq, Repr

/-- Environment for one iteration of the `_connect_phase_one` loop: the
observations left by `_process_message(connect_message)` — the redirect
data captured by the codec (if any), the type of the current packet, and
its packet flags (read in the TCPS branch). -/
structure P1Iter where
  redirectData : Option (List Char)
  packetType : Nat
  currentPacketFlags : Nat
deriving DecidableEq, Repr

/-- The NUL character at which redirect data is split. -/
def nulChar : Char := Char.ofNat 0

/-- The loop of `Protocol._connect_phase_one` (protocol.pyx lines
193-236).  `parseCS` models `ConnectParamsImpl._parse_connect_string`
followed by `_get_addresses()[0]`, yielding the host and port of the
first address of the parsed connect string; `protocol` is
`address.protocol`.  Each iteration creates a connect message when none
is current, processes it, and then: with redirect data present, splits it
at its first NUL (no NUL fails with `ERR_INVALID_REDIRECT_DATA`),
reconnects to the parsed host/port and restarts without a message, with
the remainder as connect string and the REDIRECT packet flag; on an
ACCEPT packet returns.  The separate TCPS block of lines 232-236 runs
after the redirect branch as well: for a TCPS address it overwrites the
local packet flags — including a just-assigned REDIRECT flag — with the
current packet's flags and renegotiates TLS when they demand it. -/
def connectPhaseOneLoop (parseCS : List Char → List Char × Nat)
    (protocol : String) :
    List P1Iter → Option ConnectMsgFields → List Char → Nat → List Char →
    Nat → List P1Action × Except PyExc ConnectMsgFields
  | [], _, _, _, _, _ => ([], Except.error PyExc.outOfEnv)
  | it :: rest, msg, host, port, connectString, packetFlags =>
    let m := match msg with
      | some m => m
      | none =>
        { host := host, port := port, connectString := connectString,
          packetFlags := packetFlags }
    let tr0 := [P1Action.processConnect m]
    match it.redirectData with
    | some rd =>
      (match rd.findIdx? (fun c => c == nulChar) with
       | none => (tr0, Except.error (PyExc.invalidRedirectData rd))
       | some pos =>
         let hp := parseCS (rd.take pos)
         let cs2 := rd.drop (pos + 1)
         let trTls :=
           if protocol == "tcps"
               && (it.currentPacketFlags &&& TNS_PACKET_FLAG_TLS_RENEG) != 0 then
             [P1Action.renegotiateTls]
           else []
         let pf2 :=
           if protocol == "tcps" then it.currentPacketFlags
           else TNS_PACKET_FLAG_REDIRECT
         let (tr1, res) := connectPhaseOneLoop parseCS protocol rest none
           hp.1 hp.2 cs2 pf2
         (tr0 ++ [P1Action.tcpConnect hp.1 hp.2] ++ trTls ++ tr1, res))
    | none =>
      if it.packetType == TNS_PACKET_TYPE_ACCEPT then
        (tr0, Except.ok m)
      else
        let pf :=
          if protocol == "tcps" then it.currentPacketFlags else packetFlags
        let trTls :=
          if protocol == "tcps"
              && (it.currentPacketFlags &&& TNS_PACKET_FLAG_TLS_RENEG) != 0 then
            [P1Action.renegotiateTls]
          else []
        let (tr1, res) := connectPhaseOneLoop parseCS protocol rest (some m)
          host port connectString pf
        (tr0 ++ trTls ++ tr1, res)

/-- `Protocol._connect_phase_one` entry (protocol.pyx lines 185-193): the
initial TCP connection to the address's host and port followed by the
loop, starting with no connect message and packet flags 0. -/
def connectPhaseOne (parseCS : List Char → List Char × Nat)
    (protocol : String) (iters : List P1Iter) (host : List Char) (port : Nat)
    (connectString : List Char) :
    List P1Action × Except PyExc ConnectMsgFields :=
  let (tr, res) :=
    connectPhaseOneLoop parseCS protocol iters none host port connectString 0
  (P1Action.tcpConnect host port :: tr, res)

/-- The cached `ConnectionCookie` fields assigned by
`_connect_phase_two`. -/
structure ConnectionCookie where
  populated : Bool
  protocolVersion : Nat
  serverBanner : List Char
  charsetId : Nat
  ncharsetId : Nat
  flags : Nat
  compileCaps : List Nat
  runtimeCaps : List Nat
deriving DecidableEq, Repr

/-- Observable actions of `_connect_phase_two`. -/
inductive P2Action
  | oobCheckBreak
  | oobCheckResetMarker
  | processCookieMsg
  | processProtocolMsg
  | processDataTypesMsg
  | processAuthMsg
deriving DecidableEq, Repr

/-- Environment for `_connect_phase_two`: the server observations made by
the protocol message codec (version, banner, flags, capability vectors),
whether the cookie's `populated` flag still holds after the
`ConnectionCookieMessage` round trip (the codec, outside the embedded
files, clears it when the server rejects the cookie), and whether the
auth codec demands a resend. -/
structure P2Env where
  serverVersion : Nat
  serverBanner : List Char
  serverFlags : Nat
  serverCompileCaps : List Nat
  serverRuntimeCaps : List Nat
  cookiePopulatedAfterSend : Bool
  authResend : Bool
deriving DecidableEq, Repr

/-- Modelled from the spec: the lowest server protocol version accepted
(`TNS_VERSION_MIN_ACCEPTED`, defined in `impl/thin/constants.pxi`, which
is not among the embedded sources); only its relative order to a
connection's negotiated version matters. -/
def TNS_VERSION_MIN_ACCEPTED : Nat := 315

/-- Modelled from the spec: the lowest server protocol version for which
the out-of-band check is attempted (`TNS_VERSION_MIN_OOB_CHECK`). -/
def TNS_VERSION_MIN_OOB_CHECK : Nat := 318

/-- `Protocol._connect_phase_two` (protocol.pyx lines 238-309): reject
servers below the minimum protocol version; optionally probe OOB; when a
populated cookie is available send the combined cookie message, otherwise
the protocol message; when no cookie was sent or the cookie is no longer
populated, send the data types and auth messages and — for a present,
unpopulated cookie — assign all cookie fields and set `populated` in the
same step; finally resend the auth message when the codec demands it and
clear `_in_connect`.  Returns the trace, and the cookie as left behind
(or the raised exception). -/
def connectPhaseTwo (caps : Capabilities) (env : P2Env)
    (cookie : Option ConnectionCookie) :
    List P2Action × Except PyExc (Option ConnectionCookie) :=
  if caps.protocolVersion < TNS_VERSION_MIN_ACCEPTED then
    ([], Except.error PyExc.serverVersionNotSupported)
  else
    let oobTrace :=
      if caps.supportsOob
          && decide (TNS_VERSION_MIN_OOB_CHECK ≤ caps.protocolVersion) then
        [P2Action.oobCheckBreak, P2Action.oobCheckResetMarker]
      else []
    let step1 : Option ConnectionCookie × Bool × List P2Action :=
      match cookie with
      | some c =>
        if c.populated then
          (some { c with populated := env.cookiePopulatedAfterSend }, true,
           [P2Action.processCookieMsg])
        else (some c, false, [P2Action.processProtocolMsg])
      | none => (none, false, [P2Action.processProtocolMsg])
    let (cookie1, sentCookie, trA) := step1
    let step2 : Option ConnectionCookie × List P2Action :=
      if !sentCookie
          || !(match cookie1 with
               | some c => c.populated
               | none => false) then
        let trDT := [P2Action.processDataTypesMsg, P2Action.processAuthMsg]
        match cookie1 with
        | some c =>
          if !c.populated then
            (some { populated := true,
                    protocolVersion := env.serverVersion,
                    serverBanner := env.serverBanner,
                    charsetId := caps.charsetId,
                    ncharsetId := caps.ncharsetId,
                    flags := env.serverFlags,
                    compileCaps := env.serverCompileCaps,
                    runtimeCaps := env.serverRuntimeCaps }, trDT)
          else (some c, trDT)
        | none => (none, trDT)
      else (cookie1, [])
    let (cookie2, trB) := step2
    let trC := if env.authResend then [P2Action.processAuthMsg] else []
    (oobTrace ++ trA ++ trB ++ trC, Except.ok cookie2)

/-- Python `str.replace` restricted to a single-character needle, as used
by `ConnectConstants._sanitize`: every occurrence of `old` becomes
`instead`, character by character. -/
def pyReplaceChar (value : List Char) (old instead : Char) : List Char :=
  value.map (fun c => if c = old then instead else c)

/-- `ConnectConstants._sanitize` (utils.pyx lines 52-57):
`value.replace("(", "?").replace(")", "?").replace("=", "?")`. -/
def sanitize (value : List Char) : List Char :=
  pyReplaceChar (pyReplaceChar (pyReplaceChar value '(' '?') ')' '?') '=' '?'

/-- The CID assembled by `_get_connect_data` (utils.pyx lines 91-99) from
the sanitized program, machine and user names computed in
`ConnectConstants.__init__` (utils.pyx lines 41-43). -/
def connectDataCid (programName machineName userName : List Char) :
    List Char :=
  "(PROGRAM=".data ++ sanitize programName ++ ")".data
    ++ "(HOST=".data ++ sanitize machineName ++ ")".data
    ++ "(USER=".data ++ sanitize userName ++ ")".data

/-- Modelled from the spec: the native type numbers
(`NATIVE_TYPE_NUM_*`, defined outside the embedded sources).  Their
values never influence the registry lookups, so distinct stand-ins
suffice. -/
def NATIVE_TYPE_NUM_BOOLEAN : Nat := 1

/-- Modelled from the spec: native type number stand-in. -/
def NATIVE_TYPE_NUM_BYTES : Nat := 2

/-- Modelled from the spec: native type number stand-in. -/
def NATIVE_TYPE_NUM_DOUBLE : Nat := 3

/-- Modelled from the spec: native type number stand-in. -/
def NATIVE_TYPE_NUM_FLOAT : Nat := 4

/-- Modelled from the spec: native type number stand-in. -/
def NATIVE_TYPE_NUM_INT64 : Nat := 5

/-- Modelled from the spec: native type number stand-in. -/
def NATIVE_TYPE_NUM_INTERVAL_DS : Nat := 6

/-- Modelled from the spec: native type number stand-in. -/
def NATIVE_TYPE_NUM_INTERVAL_YM : Nat := 7

/-- Modelled from the spec: native type number stand-in. -/
def NATIVE_TYPE_NUM_JSON : Nat := 8

/-- Modelled from the spec: native type number stand-in. -/
def NATIVE_TYPE_NUM_LOB : Nat := 9

/-- Modelled from the spec: native type number stand-in. -/
def NATIVE_TYPE_NUM_OBJECT : Nat := 10

/-- Modelled from the spec: native type number stand-in. -/
def NATIVE_TYPE_NUM_ROWID : Nat := 11

/-- Modelled from the spec: native type number stand-in. -/
def NATIVE_TYPE_NUM_STMT : Nat := 12

/-- Modelled from the spec: native type number stand-in. -/
def NATIVE_TYPE_NUM_TIMESTAMP : Nat := 13

/-- Modelled from the spec: native type number stand-in. -/
def NATIVE_TYPE_NUM_VECTOR : Nat := 14

/-- Modelled from the spec: `DB_TYPE_NUM_MIN` from the constants file
outside the embedded sources; the numeric values of the `DB_TYPE_NUM_*`
constants follow the public python-oracledb API (`DbType.num`
values 2001-2033, with `DB_TYPE_NUM_UNKNOWN = 0`). -/
def DB_TYPE_NUM_MIN : Nat := 2000

/-- Modelled from the spec: `DB_TYPE_NUM_MAX`. -/
def DB_TYPE_NUM_MAX : Nat := 2033

/-- The fields stored on a `DbType` by `DbType.__init__` (protocol.pyx
lines 960-975). -/
structure DbTypeRec where
  num : Nat
  name : String
  oraName : String
  nativeNum : Nat
  oraTypeNum : Nat
  defaultSize : Nat
  csfrm : Nat
  bufferSizeFactor : Nat
deriving DecidableEq, Repr

/-- The three module-level registries fed by `DbType.__init__`:
`db_type_by_num` is a Python list of length
`DB_TYPE_NUM_MAX - DB_TYPE_NUM_MIN + 1` pre-filled with `None`;
`db_type_by_ora_name` and `db_type_by_ora_type_num` are dicts, modelled
as association lists where the most recent write is found first. -/
structure DbTypeTables where
  byNum : List (Option DbTypeRec)
  byOraName : List (String × DbTypeRec)
  byOraTypeNum : List (Nat × DbTypeRec)
deriving Repr

/-- The registry state before any `DbType` is constructed (protocol.pyx
lines 954-956). -/
def initDbTypeTables : DbTypeTables :=
  { byNum := List.replicate (DB_TYPE_NUM_MAX - DB_TYPE_NUM_MIN + 1) none,
    byOraName := [],
    byOraTypeNum := [] }

/-- The registration performed by `DbType.__init__` (protocol.pyx lines
960-975): the ora-type key is `csfrm * 256 + ora_type_num`; the list slot
is indexed by `num - DB_TYPE_NUM_MIN` except that num 0 uses slot 0. -/
def registerDbType (tables : DbTypeTables) (t : DbTypeRec) : DbTypeTables :=
  let idx := if t.num ≠ 0 then t.num - DB_TYPE_NUM_MIN else 0
  { byNum := tables.byNum.set idx (some t),
    byOraName := (t.oraName, t) :: tables.byOraName,
    byOraTypeNum := (t.csfrm * 256 + t.oraTypeNum, t) :: tables.byOraTypeNum }

/-- Shorthand for the `DbType(...)` constructor calls of protocol.pyx
lines 1013-1098, with the positional/keyword arguments in the source's
order and the same defaults (`native_num=0`, `ora_type_num=0`,
`default_size=0`, `csfrm=0`, `buffer_size_factor=0`). -/
def mkDbType (num : Nat) (name oraName : String) (nativeNum oraTypeNum
    defaultSize csfrm bufferSizeFactor : Nat) : DbTypeRec :=
  { num := num, name := name, oraName := oraName, nativeNum := nativeNum,
    oraTypeNum := oraTypeNum, defaultSize := defaultSize, csfrm := csfrm,
    bufferSizeFactor := bufferSizeFactor }

/-- The database type registrations of protocol.pyx lines 1013-1098, in
source order, with the `DB_TYPE_NUM_*` values modelled as documented for
the public API. -/
def allDbTypes : List DbTypeRec :=
  [ mkDbType 2020 "DB_TYPE_BFILE" "BFILE" NATIVE_TYPE_NUM_LOB 114 0 0 0,
    mkDbType 2008 "DB_TYPE_BINARY_DOUBLE" "BINARY_DOUBLE"
      NATIVE_TYPE_NUM_DOUBLE 101 0 0 8,
    mkDbType 2007 "DB_TYPE_BINARY_FLOAT" "BINARY_FLOAT"
      NATIVE_TYPE_NUM_FLOAT 100 0 0 4,
    mkDbType 2009 "DB_TYPE_BINARY_INTEGER" "BINARY_INTEGER"
      NATIVE_TYPE_NUM_INT64 3 0 0 22,
    mkDbType 2019 "DB_TYPE_BLOB" "BLOB" NATIVE_TYPE_NUM_LOB 113 0 0 112,
    mkDbType 2022 "DB_TYPE_BOOLEAN" "BOOLEAN" NATIVE_TYPE_NUM_BOOLEAN 252 0 0 4,
    mkDbType 2003 "DB_TYPE_CHAR" "CHAR" NATIVE_TYPE_NUM_BYTES 96 2000 1 4,
    mkDbType 2017 "DB_TYPE_CLOB" "CLOB" NATIVE_TYPE_NUM_LOB 112 0 1 112,
    mkDbType 2021 "DB_TYPE_CURSOR" "CURSOR" NATIVE_TYPE_NUM_STMT 102 0 0 4,
    mkDbType 2011 "DB_TYPE_DATE" "DATE" NATIVE_TYPE_NUM_TIMESTAMP 12 0 0 7,
    mkDbType 2015 "DB_TYPE_INTERVAL_DS" "INTERVAL DAY TO SECOND"
      NATIVE_TYPE_NUM_INTERVAL_DS 183 0 0 11,
    mkDbType 2016 "DB_TYPE_INTERVAL_YM" "INTERVAL YEAR TO MONTH"
      NATIVE_TYPE_NUM_INTERVAL_YM 182 0 0 0,
    mkDbType 2027 "DB_TYPE_JSON" "JSON" NATIVE_TYPE_NUM_JSON 119 0 0 0,
    mkDbType 2024 "DB_TYPE_LONG" "LONG" NATIVE_TYPE_NUM_BYTES 8 0 1 2147483647,
    mkDbType 2031 "DB_TYPE_LONG_NVARCHAR" "LONG NVARCHAR"
      NATIVE_TYPE_NUM_BYTES 8 0 2 2147483647,
    mkDbType 2025 "DB_TYPE_LONG_RAW" "LONG RAW"
      NATIVE_TYPE_NUM_BYTES 24 0 0 2147483647,
    mkDbType 2004 "DB_TYPE_NCHAR" "NCHAR" NATIVE_TYPE_NUM_BYTES 96 2000 2 4,
    mkDbType 2018 "DB_TYPE_NCLOB" "NCLOB" NATIVE_TYPE_NUM_LOB 112 0 2 112,
    mkDbType 2010 "DB_TYPE_NUMBER" "NUMBER" NATIVE_TYPE_NUM_BYTES 2 0 0 22,
    mkDbType 2002 "DB_TYPE_NVARCHAR" "NVARCHAR2"
      NATIVE_TYPE_NUM_BYTES 1 4000 2 4,
    mkDbType 2023 "DB_TYPE_OBJECT" "OBJECT" NATIVE_TYPE_NUM_OBJECT 109 0 0 0,
    mkDbType 2006 "DB_TYPE_RAW" "RAW" NATIVE_TYPE_NUM_BYTES 23 4000 0 1,
    mkDbType 2005 "DB_TYPE_ROWID" "ROWID" NATIVE_TYPE_NUM_ROWID 11 0 0 18,
    mkDbType 2012 "DB_TYPE_TIMESTAMP" "TIMESTAMP"
      NATIVE_TYPE_NUM_TIMESTAMP 180 0 0 11,
    mkDbType 2014 "DB_TYPE_TIMESTAMP_LTZ" "TIMESTAMP WITH LOCAL TZ"
      NATIVE_TYPE_NUM_TIMESTAMP 231 0 0 11,
    mkDbType 2013 "DB_TYPE_TIMESTAMP_TZ" "TIMESTAMP WITH TZ"
      NATIVE_TYPE_NUM_TIMESTAMP 181 0 0 13,
    mkDbType 0 "DB_TYPE_UNKNOWN" "UNKNOWN" 0 0 0 0 0,
    mkDbType 2030 "DB_TYPE_UROWID" "UROWID" NATIVE_TYPE_NUM_BYTES 208 0 0 0,
    mkDbType 2001 "DB_TYPE_VARCHAR" "VARCHAR2"
      NATIVE_TYPE_NUM_BYTES 1 4000 1 4,
    mkDbType 2033 "DB_TYPE_VECTOR" "VECTOR" NATIVE_TYPE_NUM_VECTOR 127 0 0 0,
    mkDbType 2032 "DB_TYPE_XMLTYPE" "XMLTYPE"
      NATIVE_TYPE_NUM_BYTES 109 0 1 2147483647 ]

/-- The registry after module initialization: every `DbType(...)` call in
source order, followed by the extra `db_type_by_ora_name` aliases of
protocol.pyx lines 1101-1108 (which touch only the name registry). -/
def dbTypeTables : DbTypeTables :=
  let t := allDbTypes.foldl registerDbType initDbTypeTables
  let numberRec := mkDbType 2010 "DB_TYPE_NUMBER" "NUMBER"
    NATIVE_TYPE_NUM_BYTES 2 0 0 22
  let boolRec := mkDbType 2022 "DB_TYPE_BOOLEAN" "BOOLEAN"
    NATIVE_TYPE_NUM_BOOLEAN 252 0 0 4
  let binIntRec := mkDbType 2009 "DB_TYPE_BINARY_INTEGER" "BINARY_INTEGER"
    NATIVE_TYPE_NUM_INT64 3 0 0 22
  { t with byOraName :=
      ("SMALLINT", numberRec) :: ("REAL", numberRec)
        :: ("PL/SQL PLS INTEGER", binIntRec)
        :: ("PL/SQL BINARY INTEGER", binIntRec)
        :: ("PL/SQL BOOLEAN", boolRec) :: ("INTEGER", numberRec)
        :: ("FLOAT", numberRec) :: ("DOUBLE PRECISION", numberRec)
        :: t.byOraName }

/-- `DbType._from_num` (protocol.pyx lines 983-991): the argument is a
`uint32_t`; nonzero numbers are shifted down by `DB_TYPE_NUM_MIN` in
unsigned 32-bit arithmetic and used to index the Python list
`db_type_by_num`.  A list index out of range raises `IndexError`, which
the surrounding `except KeyError` does not catch; an in-range slot is
returned as-is, even when it still holds `None`, so
`ERR_ORACLE_TYPE_NOT_SUPPORTED` is unreachable on this path. -/
def dbTypeFromNum (num : Nat) : Except PyExc (Option DbTypeRec) :=
  let num32 := num % 2 ^ 32
  let idx := if num32 ≠ 0 then (num32 + 2 ^ 32 - DB_TYPE_NUM_MIN) % 2 ^ 32
    else num32
  match dbTypeTables.byNum.get? idx with
  | some slot => Except.ok slot
  | none => Except.error PyExc.indexError

/-- `DbType._from_ora_type_and_csfrm` (protocol.pyx lines 1001-1009):
the `uint8_t` arguments form the key `csfrm * 256 + ora_type_num`; a dict
miss raises `KeyError`, which is caught, and
`ERR_ORACLE_TYPE_NOT_SUPPORTED` is raised instead. -/
def dbTypeFromOraTypeAndCsfrm (oraTypeNum csfrm : Nat) :
    Except PyExc DbTypeRec :=
  let key := (csfrm % 256) * 256 + oraTypeNum % 256
  match dbTypeTables.byOraTypeNum.lookup key with
  | some t => Except.ok t
  | none => Except.error (PyExc.oracleTypeNotSupported (oraTypeNum % 256))

deriving instance DecidableEq for Except

/-- The character-for-character replacement that the claims describe:
`(`, `)` and `=` become `?`, everything else is kept. -/
def cidReplacement (c : Char) : Char :=
  if c = '(' ∨ c = ')' ∨ c = '=' then '?' else c

/-- Declarative description of the packet `_reset` leaves current: the
first non-MARKER packet strictly after the first RESET marker of the
stream (the error packet the server sends after acknowledging the
reset). -/
def resetErrorPacket (ps : List Packet) : Option Packet :=
  match ps.dropWhile (fun p => !isResetMarker p) with
  | [] => none
  | _ :: rest => (rest.dropWhile isMarker).head?

theorem sanitize_eq_map (v : List Char) :
    sanitize v = v.map cidReplacement := by
  induction v with
  | nil => rfl
  | cons a as ih =>
    simp only [sanitize, pyReplaceChar, List.map_cons, cidReplacement] at *
    refine congrArg₂ _ ?_ ih
    by_cases h1 : a = '('
    · subst h1; decide
    · by_cases h2 : a = ')'
      · subst h2; decide
      · by_cases h3 : a = '='
        · subst h3; decide
        · simp [h1, h2, h3]

theorem sanitize_length (v : List Char) :
    (sanitize v).length = v.length := by
  rw [sanitize_eq_map, List.length_map]

/-- C6: for every program, machine and user name, the CID placed in the
connect data uses the sanitized value of each: every occurrence of `(`,
`)` and `=` is replaced by `?`, every other character is unchanged, and
the length of each string is preserved. -/
theorem cid_uses_sanitized_names (p h u : List Char) :
    connectDataCid p h u =
      "(PROGRAM=".data ++ p.map cidReplacement
        ++ ")(HOST=".data ++ h.map cidReplacement
        ++ ")(USER=".data ++ u.map cidReplacement ++ ")".data
    ∧ (∀ v : List Char,
        sanitize v =
          v.map (fun c => if c = '(' ∨ c = ')' ∨ c = '=' then '?' else c)
        ∧ (sanitize v).length = v.length) := by
  constructor
  · simp only [connectDataCid, sanitize_eq_map]
    simp [List.append_assoc]
  · intro v
    exact ⟨sanitize_eq_map v, sanitize_length v⟩

/-- C7: `_break_external` is idempotent — a call with `break_in_progress`
already set sends nothing and changes no state, while an effective call
records the break and sends exactly one break, an out-of-band break when
the capabilities support OOB and otherwise an INTERRUPT marker through a
fresh `WriteBuffer` distinct from the regular one; a second call right
after an effective one sends nothing. -/
theorem breakExternal_idempotent (s : ProtocolState) :
    breakExternal s =
      (if s.breakInProgress then (s, [])
       else ({ s with breakInProgress := true },
             if s.caps.supportsOob then [Action.oobBreak]
             else [Action.marker WBuf.fresh TNS_MARKER_TYPE_INTERRUPT]))
    ∧ (breakExternal (breakExternal s).1).2 = []
    ∧ WBuf.fresh ≠ WBuf.regular := by
  refine ⟨?_, ?_, by decide⟩
  · unfold breakExternal sendMarker
    cases h : s.breakInProgress <;> simp [h]
  · unfold breakExternal sendMarker
    cases h : s.breakInProgress <;> simp [h]

/-- C9, counterexample: `DbType._from_num` looks a number up in the
Python list `db_type_by_num`; for an in-range number under which nothing
was registered it returns `None` without raising, and for a number past
`DB_TYPE_NUM_MAX` the list access raises `IndexError`, which the
handler for `KeyError` does not intercept — in neither case is
`ERR_ORACLE_TYPE_NOT_SUPPORTED` raised. -/
theorem dbTypeFromNum_miss_returns_none :
    dbTypeFromNum 2026 = Except.ok none
    ∧ dbTypeFromNum (DB_TYPE_NUM_MAX + 1) = Except.error PyExc.indexError := by
  constructor <;> decide

/-- C9, amended: every registered `DbType` round-trips through both
`_from_ora_type_and_csfrm` and `_from_num`; an ora-type/charset-form key
under which nothing was registered raises
`ERR_ORACLE_TYPE_NOT_SUPPORTED` from `_from_ora_type_and_csfrm` (while
`_from_num`, per the counterexample, returns `None` or raises
`IndexError` on a miss instead). -/
theorem dbType_lookup_roundtrip :
    (∀ t ∈ allDbTypes,
        dbTypeFromOraTypeAndCsfrm t.oraTypeNum t.csfrm = Except.ok t
        ∧ dbTypeFromNum t.num = Except.ok (some t))
    ∧ ∀ o c : Nat,
        dbTypeTables.byOraTypeNum.lookup ((c % 256) * 256 + o % 256) = none →
        dbTypeFromOraTypeAndCsfrm o c =
          Except.error (PyExc.oracleTypeNotSupported (o % 256)) := by
  constructor
  · decide
  · intro o c hmiss
    simp only [dbTypeFromOraTypeAndCsfrm, hmiss]

/-- C9, witness: the round-trip theorem applied to `DB_TYPE_BFILE` and
the miss case applied to the unregistered ora-type number 99. -/
theorem dbType_lookup_roundtrip_witness :
    dbTypeFromOraTypeAndCsfrm 114 0 =
      Except.ok (mkDbType 2020 "DB_TYPE_BFILE" "BFILE" NATIVE_TYPE_NUM_LOB
        114 0 0 0)
    ∧ dbTypeFromOraTypeAndCsfrm 99 0 =
      Except.error (PyExc.oracleTypeNotSupported 99) :=
  ⟨(dbType_lookup_roundtrip.1
      (mkDbType 2020 "DB_TYPE_BFILE" "BFILE" NATIVE_TYPE_NUM_LOB 114 0 0 0)
      (by decide)).1,
   dbType_lookup_roundtrip.2 99 0 (by decide)⟩

theorem dropWhile_head_false {α : Type} (p : α → Bool) :
    ∀ (l : List α) (x : α) (xs : List α), l.dropWhile p = x :: xs →
      p x = false := by
  intro l
  induction l with
  | nil => intro x xs h; simp [List.dropWhile] at h
  | cons a as ih =>
    intro x xs h
    rw [List.dropWhile_cons] at h
    split at h
    · exact ih x xs h
    · injection h with h1 h2
      subst h1
      simp_all

theorem resetDrainToResetMarker_eq :
    ∀ (queue : List Packet) (current : Packet),
      resetDrainToResetMarker current queue =
        match (current :: queue).dropWhile (fun p => !isResetMarker p) with
        | [] => none
        | r :: rest => some (r, rest) := by
  intro queue
  induction queue with
  | nil =>
    intro c
    unfold resetDrainToResetMarker
    by_cases h : isResetMarker c <;> simp [List.dropWhile, h]
  | cons p rest ih =>
    intro c
    unfold resetDrainToResetMarker
    by_cases h : isResetMarker c <;> simp [List.dropWhile_cons, h, ih]

theorem resetSkipMarkers_eq :
    ∀ (queue : List Packet) (current : Packet),
      resetSkipMarkers current queue =
        match (current :: queue).dropWhile isMarker with
        | [] => none
        | x :: rest => some (x, rest) := by
  intro queue
  induction queue with
  | nil =>
    intro c
    unfold resetSkipMarkers
    by_cases h : isMarker c <;> simp [List.dropWhile, h]
  | cons p rest ih =>
    intro c
    unfold resetSkipMarkers
    by_cases h : isMarker c <;> simp [List.dropWhile_cons, h, ih]

theorem resetEngine_spec (s : ProtocolState) (q : List Packet) (ep : Packet)
    (h : resetErrorPacket (s.currentPacket :: q) = some ep) :
    ∃ q2, resetEngine s q =
      some ({ s with currentPacket := ep, breakInProgress := false },
            [Action.marker WBuf.regular TNS_MARKER_TYPE_RESET], q2) := by
  unfold resetErrorPacket at h
  rcases hdw : (s.currentPacket :: q).dropWhile (fun p => !isResetMarker p) with
    _ | ⟨rm, rest⟩
  · rw [hdw] at h; simp at h
  · rw [hdw] at h
    have h' : (rest.dropWhile isMarker).head? = some ep := h
    have hrm : isResetMarker rm := by
      have := dropWhile_head_false (fun p => !isResetMarker p) _ _ _ hdw
      simpa using this
    have hm : isMarker rm := by
      unfold isResetMarker at hrm
      unfold isMarker
      exact (Bool.and_eq_true _ _ |>.mp hrm).1
    have h1 : resetDrainToResetMarker s.currentPacket q = some (rm, rest) := by
      rw [resetDrainToResetMarker_eq, hdw]
    rcases hdw2 : rest.dropWhile isMarker with _ | ⟨x, xs⟩
    · rw [hdw2] at h'; simp at h'
    · rw [hdw2] at h'
      have hx : x = ep := by simpa using h'
      subst hx
      have h2 : resetSkipMarkers rm rest = some (x, xs) := by
        rw [resetSkipMarkers_eq]
        simp only [List.dropWhile_cons, hm, if_true, hdw2]
      refine ⟨xs, ?_⟩
      unfold resetEngine
      rw [h1]
      simp [h2, sendMarker]

/-- C4: when an exception other than the handled socket timeout escapes
the send, receive or process step of `_process_message` while the
connection is past the connect phase, a request packet has been sent and
the read buffer's transport (and its socket) are still attached, the
engine sends a BREAK marker and runs `_reset` — which sends a RESET
marker, discards incoming packets until a MARKER of type RESET is seen,
skips any further marker packets, leaves the following error packet
current and clears `break_in_progress` — before the exception
propagates.  The first conjunct covers an exception from
`message.process`, the second an exception from the receive step, the
third an exception from the send step after a packet was flushed. -/
theorem processMessage_exc_break_and_reset (getExc : Nat → Nat)
    (isDead : Nat → Bool) (s : ProtocolState) (m : Msg) (q : List Packet)
    (pD ep ep2 : Packet) (sent : Bool) (rl : Nat) (rs : String)
    (pm fp bm : Msg) (rr brv rx : RecvEnv) (fr bpr pr0 : StepRes)
    (hin : s.inConnect = false)
    (hrt : s.readBufTransport = true)
    (hit : s.readBufInnerTransport = true)
    (hpm : pD.packetType ≠ TNS_PACKET_TYPE_MARKER)
    (hpr : pD.packetType ≠ TNS_PACKET_TYPE_REFUSE)
    (hreset : resetErrorPacket (pD :: q) = some ep)
    (hreset2 : resetErrorPacket (s.currentPacket :: q) = some ep2) :
    (processMessage getExc isDead
      [{ sendRes := StepRes.ok, sentPacket := sent,
         recv := { res := StepRes.ok, packet := pD, refuseLen := rl,
                   refuseMsg := rs },
         queue := q, processRes := StepRes.exc, pmsg := pm,
         recovRecv := rr, flushProcessRes := fr, flushPmsg := fp,
         breakRecv := brv, breakProcessRes := bpr, breakPmsg := bm }] s m =
      ({ s with packetSent := true, currentPacket := ep,
                breakInProgress := false },
       m,
       [Action.resetPackets, Action.sendMessage, Action.waitForPackets,
        Action.processMsg,
        Action.marker WBuf.regular TNS_MARKER_TYPE_BREAK,
        Action.marker WBuf.regular TNS_MARKER_TYPE_RESET],
       some PyExc.otherExc))
    ∧ (processMessage getExc isDead
      [{ sendRes := StepRes.ok, sentPacket := sent,
         recv := { res := StepRes.exc, packet := pD, refuseLen := rl,
                   refuseMsg := rs },
         queue := q, processRes := StepRes.ok, pmsg := pm,
         recovRecv := rx, flushProcessRes := fr, flushPmsg := fp,
         breakRecv := brv, breakProcessRes := bpr, breakPmsg := bm }] s m =
      ({ s with packetSent := true, currentPacket := ep2,
                breakInProgress := false },
       m,
       [Action.resetPackets, Action.sendMessage, Action.waitForPackets,
        Action.marker WBuf.regular TNS_MARKER_TYPE_BREAK,
        Action.marker WBuf.regular TNS_MARKER_TYPE_RESET],
       some PyExc.otherExc))
    ∧ (processMessage getExc isDead
      [{ sendRes := StepRes.exc, sentPacket := true,
         recv := rx, queue := q, processRes := pr0, pmsg := pm,
         recovRecv := rr, flushProcessRes := fr, flushPmsg := fp,
         breakRecv := brv, breakProcessRes := bpr, breakPmsg := bm }] s m =
      ({ s with packetSent := true, currentPacket := ep2,
                breakInProgress := false },
       m,
       [Action.resetPackets, Action.sendMessage,
        Action.marker WBuf.regular TNS_MARKER_TYPE_BREAK,
        Action.marker WBuf.regular TNS_MARKER_TYPE_RESET],
       some PyExc.otherExc)) := by
  refine ⟨?_, ?_, ?_⟩
  · have hs2 : resetErrorPacket
        (({ s with packetSent := true,
                   currentPacket := pD } : ProtocolState).currentPacket :: q)
        = some ep := hreset
    obtain ⟨q2, hq⟩ := resetEngine_spec
      { s with packetSent := true, currentPacket := pD } q ep hs2
    have hrb : runBody
        { sendRes := StepRes.ok, sentPacket := sent,
          recv := { res := StepRes.ok, packet := pD, refuseLen := rl,
                    refuseMsg := rs },
          queue := q, processRes := StepRes.exc, pmsg := pm,
          recovRecv := rr, flushProcessRes := fr, flushPmsg := fp,
          breakRecv := brv, breakProcessRes := bpr, breakPmsg := bm } s m =
        ({ s with packetSent := true, currentPacket := pD }, m, q,
         [Action.resetPackets, Action.sendMessage, Action.waitForPackets,
          Action.processMsg], some PyExc.otherExc) := by
      simp [runBody, receivePacketEngine, beq_iff_eq, hpm, hpr]
    have hap : attemptPhase
        { sendRes := StepRes.ok, sentPacket := sent,
          recv := { res := StepRes.ok, packet := pD, refuseLen := rl,
                    refuseMsg := rs },
          queue := q, processRes := StepRes.exc, pmsg := pm,
          recovRecv := rr, flushProcessRes := fr, flushPmsg := fp,
          breakRecv := brv, breakProcessRes := bpr, breakPmsg := bm } s m =
        ({ s with packetSent := true, currentPacket := ep,
                  breakInProgress := false },
         m,
         [Action.resetPackets, Action.sendMessage, Action.waitForPackets,
          Action.processMsg,
          Action.marker WBuf.regular TNS_MARKER_TYPE_BREAK,
          Action.marker WBuf.regular TNS_MARKER_TYPE_RESET],
         some PyExc.otherExc) := by
      unfold attemptPhase
      rw [hrb]
      rw [hin, hrt, hit] at hq
      simp [hin, hrt, hit, hq, sendMarker]
    unfold processMessage
    rw [hap]
  · have hs2 : resetErrorPacket
        (({ s with packetSent := true } : ProtocolState).currentPacket :: q)
        = some ep2 := hreset2
    obtain ⟨q2, hq⟩ := resetEngine_spec
      { s with packetSent := true } q ep2 hs2
    have hrb : runBody
        { sendRes := StepRes.ok, sentPacket := sent,
          recv := { res := StepRes.exc, packet := pD, refuseLen := rl,
                    refuseMsg := rs },
          queue := q, processRes := StepRes.ok, pmsg := pm,
          recovRecv := rx, flushProcessRes := fr, flushPmsg := fp,
          breakRecv := brv, breakProcessRes := bpr, breakPmsg := bm } s m =
        ({ s with packetSent := true }, m, q,
         [Action.resetPackets, Action.sendMessage, Action.waitForPackets],
         some PyExc.otherExc) := by
      simp [runBody, receivePacketEngine]
    have hap : attemptPhase
        { sendRes := StepRes.ok, sentPacket := sent,
          recv := { res := StepRes.exc, packet := pD, refuseLen := rl,
                    refuseMsg := rs },
          queue := q, processRes := StepRes.ok, pmsg := pm,
          recovRecv := rx, flushProcessRes := fr, flushPmsg := fp,
          breakRecv := brv, breakProcessRes := bpr, breakPmsg := bm } s m =
        ({ s with packetSent := true, currentPacket := ep2,
                  breakInProgress := false },
         m,
         [Action.resetPackets, Action.sendMessage, Action.waitForPackets,
          Action.marker WBuf.regular TNS_MARKER_TYPE_BREAK,
          Action.marker WBuf.regular TNS_MARKER_TYPE_RESET],
         some PyExc.otherExc) := by
      unfold attemptPhase
      rw [hrb]
      rw [hin, hrt, hit] at hq
      simp [hin, hrt, hit, hq, sendMarker]
    unfold processMessage
    rw [hap]
  · have hs2 : resetErrorPacket
        (({ s with packetSent := true } : ProtocolState).currentPacket :: q)
        = some ep2 := hreset2
    obtain ⟨q2, hq⟩ := resetEngine_spec
      { s with packetSent := true } q ep2 hs2
    have hrb : runBody
        { sendRes := StepRes.exc, sentPacket := true,
          recv := rx, queue := q, processRes := pr0, pmsg := pm,
          recovRecv := rr, flushProcessRes := fr, flushPmsg := fp,
          breakRecv := brv, breakProcessRes := bpr, breakPmsg := bm } s m =
        ({ s with packetSent := true }, m, q,
         [Action.resetPackets, Action.sendMessage],
         some PyExc.otherExc) := by
      simp [runBody]
    have hap : attemptPhase
        { sendRes := StepRes.exc, sentPacket := true,
          recv := rx, queue := q, processRes := pr0, pmsg := pm,
          recovRecv := rr, flushProcessRes := fr, flushPmsg := fp,
          breakRecv := brv, breakProcessRes := bpr, breakPmsg := bm } s m =
        ({ s with packetSent := true, currentPacket := ep2,
                  breakInProgress := false },
         m,
         [Action.resetPackets, Action.sendMessage,
          Action.marker WBuf.regular TNS_MARKER_TYPE_BREAK,
          Action.marker WBuf.regular TNS_MARKER_TYPE_RESET],
         some PyExc.otherExc) := by
      unfold attemptPhase
      rw [hrb]
      rw [hin, hrt, hit] at hq
      simp [hin, hrt, hit, hq, sendMarker]
    unfold processMessage
    rw [hap]

/-- C4, witness: the theorem applied to a connection past the connect
phase with a live transport, a DATA response packet, a queue holding one
RESET marker followed by the error packet, and an exception from the
process (resp. receive, resp. send-after-flush) step. -/
theorem processMessage_exc_break_and_reset_witness :
    (processMessage (fun n => n) (fun _ => false)
      [{ sendRes := StepRes.ok, sentPacket := true,
         recv := { res := StepRes.ok, packet := ⟨6, 0⟩, refuseLen := 0,
                   refuseMsg := "" },
         queue := [⟨12, 2⟩, ⟨6, 0⟩], processRes := StepRes.exc,
         pmsg := ⟨0, false, false, false, 0, ⟨0, 0, none⟩⟩,
         recovRecv := ⟨StepRes.ok, ⟨6, 0⟩, 0, ""⟩,
         flushProcessRes := StepRes.ok,
         flushPmsg := ⟨0, false, false, false, 0, ⟨0, 0, none⟩⟩,
         breakRecv := ⟨StepRes.ok, ⟨6, 0⟩, 0, ""⟩,
         breakProcessRes := StepRes.ok,
         breakPmsg := ⟨0, false, false, false, 0, ⟨0, 0, none⟩⟩ }]
      ⟨⟨false, 319, 873, 2000⟩, false, false, false, true, true, true, true,
       false, ⟨6, 0⟩⟩
      ⟨1000, false, false, false, 0, ⟨0, 0, none⟩⟩ =
      ({ (⟨⟨false, 319, 873, 2000⟩, false, false, false, true, true, true,
          true, false, ⟨6, 0⟩⟩ : ProtocolState) with
            packetSent := true, currentPacket := ⟨6, 0⟩,
            breakInProgress := false },
       ⟨1000, false, false, false, 0, ⟨0, 0, none⟩⟩,
       [Action.resetPackets, Action.sendMessage, Action.waitForPackets,
        Action.processMsg,
        Action.marker WBuf.regular TNS_MARKER_TYPE_BREAK,
        Action.marker WBuf.regular TNS_MARKER_TYPE_RESET],
       some PyExc.otherExc))
    ∧ (processMessage (fun n => n) (fun _ => false)
      [{ sendRes := StepRes.ok, sentPacket := true,
         recv := { res := StepRes.exc, packet := ⟨6, 0⟩, refuseLen := 0,
                   refuseMsg := "" },
         queue := [⟨12, 2⟩, ⟨6, 0⟩], processRes := StepRes.ok,
         pmsg := ⟨0, false, false, false, 0, ⟨0, 0, none⟩⟩,
         recovRecv := ⟨StepRes.ok, ⟨6, 0⟩, 0, ""⟩,
         flushProcessRes := StepRes.ok,
         flushPmsg := ⟨0, false, false, false, 0, ⟨0, 0, none⟩⟩,
         breakRecv := ⟨StepRes.ok, ⟨6, 0⟩, 0, ""⟩,
         breakProcessRes := StepRes.ok,
         breakPmsg := ⟨0, false, false, false, 0, ⟨0, 0, none⟩⟩ }]
      ⟨⟨false, 319, 873, 2000⟩, false, false, false, true, true, true, true,
       false, ⟨6, 0⟩⟩
      ⟨1000, false, false, false, 0, ⟨0, 0, none⟩⟩ =
      ({ (⟨⟨false, 319, 873, 2000⟩, false, false, false, true, true, true,
          true, false, ⟨6, 0⟩⟩ : ProtocolState) with
            packetSent := true, currentPacket := ⟨6, 0⟩,
            breakInProgress := false },
       ⟨1000, false, false, false, 0, ⟨0, 0, none⟩⟩,
       [Action.resetPackets, Action.sendMessage, Action.waitForPackets,
        Action.marker WBuf.regular TNS_MARKER_TYPE_BREAK,
        Action.marker WBuf.regular TNS_MARKER_TYPE_RESET],
       some PyExc.otherExc))
    ∧ (processMessage (fun n => n) (fun _ => false)
      [{ sendRes := StepRes.exc, sentPacket := true,
         recv := ⟨StepRes.ok, ⟨6, 0⟩, 0, ""⟩,
         queue := [⟨12, 2⟩, ⟨6, 0⟩], processRes := StepRes.ok,
         pmsg := ⟨0, false, false, false, 0, ⟨0, 0, none⟩⟩,
         recovRecv := ⟨StepRes.ok, ⟨6, 0⟩, 0, ""⟩,
         flushProcessRes := StepRes.ok,
         flushPmsg := ⟨0, false, false, false, 0, ⟨0, 0, none⟩⟩,
         breakRecv := ⟨StepRes.ok, ⟨6, 0⟩, 0, ""⟩,
         breakProcessRes := StepRes.ok,
         breakPmsg := ⟨0, false, false, false, 0, ⟨0, 0, none⟩⟩ }]
      ⟨⟨false, 319, 873, 2000⟩, false, false, false, true, true, true, true,
       false, ⟨6, 0⟩⟩
      ⟨1000, false, false, false, 0, ⟨0, 0, none⟩⟩ =
      ({ (⟨⟨false, 319, 873, 2000⟩, false, false, false, true, true, true,
          true, false, ⟨6, 0⟩⟩ : ProtocolState) with
            packetSent := true, currentPacket := ⟨6, 0⟩,
            breakInProgress := false },
       ⟨1000, false, false, false, 0, ⟨0, 0, none⟩⟩,
       [Action.resetPackets, Action.sendMessage,
        Action.marker WBuf.regular TNS_MARKER_TYPE_BREAK,
        Action.marker WBuf.regular TNS_MARKER_TYPE_RESET],
       some PyExc.otherExc)) :=
  processMessage_exc_break_and_reset (fun n => n) (fun _ => false)
    ⟨⟨false, 319, 873, 2000⟩, false, false, false, true, true, true, true,
     false, ⟨6, 0⟩⟩
    ⟨1000, false, false, false, 0, ⟨0, 0, none⟩⟩
    [⟨12, 2⟩, ⟨6, 0⟩] ⟨6, 0⟩ ⟨6, 0⟩ ⟨6, 0⟩ true 0 ""
    ⟨0, false, false, false, 0, ⟨0, 0, none⟩⟩
    ⟨0, false, false, false, 0, ⟨0, 0, none⟩⟩
    ⟨0, false, false, false, 0, ⟨0, 0, none⟩⟩
    ⟨StepRes.ok, ⟨6, 0⟩, 0, ""⟩ ⟨StepRes.ok, ⟨6, 0⟩, 0, ""⟩
    ⟨StepRes.ok, ⟨6, 0⟩, 0, ""⟩ StepRes.ok StepRes.ok StepRes.ok
    rfl rfl rfl (by decide) (by decide) (by decide) (by decide)

/-- C1: when the first receive of the response times out, the engine
issues a break through `_break_external` — an out-of-band break when the
capabilities support OOB, otherwise an INTERRUPT marker through a fresh
write buffer — awaits one recovery packet and raises
`ERR_CALL_TIMEOUT_EXCEEDED` (first conjunct); when the receive during
this recovery also times out, it force-closes the transport and raises
`ERR_CONNECTION_CLOSED` instead (second conjunct). -/
theorem processMessage_timeout_recovery (getExc : Nat → Nat)
    (isDead : Nat → Bool) (s : ProtocolState) (m : Msg) (q : List Packet)
    (pX p2 : Packet) (sent : Bool) (rl rl2 : Nat) (rs rs2 : String)
    (pm fp bm : Msg) (brv : RecvEnv) (pr fr bpr : StepRes)
    (hbip : s.breakInProgress = false)
    (htr : s.transport = true)
    (hp2m : p2.packetType ≠ TNS_PACKET_TYPE_MARKER)
    (hp2r : p2.packetType ≠ TNS_PACKET_TYPE_REFUSE) :
    (processMessage getExc isDead
      [{ sendRes := StepRes.ok, sentPacket := sent,
         recv := { res := StepRes.timeout, packet := pX, refuseLen := rl,
                   refuseMsg := rs },
         queue := q, processRes := pr, pmsg := pm,
         recovRecv := { res := StepRes.ok, packet := p2, refuseLen := rl2,
                        refuseMsg := rs2 },
         flushProcessRes := fr, flushPmsg := fp,
         breakRecv := brv, breakProcessRes := bpr, breakPmsg := bm }] s m =
      ({ s with packetSent := true, breakInProgress := false,
                currentPacket := p2 },
       m,
       [Action.resetPackets, Action.sendMessage, Action.waitForPackets]
         ++ (if s.caps.supportsOob then [Action.oobBreak]
             else [Action.marker WBuf.fresh TNS_MARKER_TYPE_INTERRUPT])
         ++ [Action.waitForPackets],
       some (PyExc.callTimeoutExceeded m.callTimeout)))
    ∧ (processMessage getExc isDead
      [{ sendRes := StepRes.ok, sentPacket := sent,
         recv := { res := StepRes.timeout, packet := pX, refuseLen := rl,
                   refuseMsg := rs },
         queue := q, processRes := pr, pmsg := pm,
         recovRecv := { res := StepRes.timeout, packet := p2, refuseLen := rl2,
                        refuseMsg := rs2 },
         flushProcessRes := fr, flushPmsg := fp,
         breakRecv := brv, breakProcessRes := bpr, breakPmsg := bm }] s m =
      ({ s with packetSent := true, breakInProgress := true,
                transport := false, readBufTransport := false,
                readBufInnerTransport := false, writeBufTransport := false },
       m,
       [Action.resetPackets, Action.sendMessage, Action.waitForPackets]
         ++ (if s.caps.supportsOob then [Action.oobBreak]
             else [Action.marker WBuf.fresh TNS_MARKER_TYPE_INTERRUPT])
         ++ [Action.waitForPackets, Action.disconnect],
       some (PyExc.connectionClosed
         "socket timed out while recovering from previous socket timeout"))) := by
  constructor
  · unfold processMessage attemptPhase runBody
    cases hoob : s.caps.supportsOob <;>
      simp [receivePacketEngine, breakExternal, sendMarker, beq_iff_eq,
            hbip, hoob, hp2m, hp2r]
  · unfold processMessage attemptPhase runBody
    cases hoob : s.caps.supportsOob <;>
      simp [receivePacketEngine, breakExternal, forceClose, sendMarker,
            beq_iff_eq, hbip, hoob, htr]

/-- C1, witness: the theorem applied to a no-OOB connection whose first
receive times out; the recovery receive succeeds in the first conjunct
and times out in the second. -/
theorem processMessage_timeout_recovery_witness :
    (processMessage (fun n => n) (fun _ => false)
      [{ sendRes := StepRes.ok, sentPacket := true,
         recv := { res := StepRes.timeout, packet := ⟨6, 0⟩, refuseLen := 0,
                   refuseMsg := "" },
         queue := [], processRes := StepRes.ok,
         pmsg := ⟨1000, false, false, false, 0, ⟨0, 0, none⟩⟩,
         recovRecv := { res := StepRes.ok, packet := ⟨6, 0⟩, refuseLen := 0,
                        refuseMsg := "" },
         flushProcessRes := StepRes.ok,
         flushPmsg := ⟨1000, false, false, false, 0, ⟨0, 0, none⟩⟩,
         breakRecv := ⟨StepRes.ok, ⟨6, 0⟩, 0, ""⟩,
         breakProcessRes := StepRes.ok,
         breakPmsg := ⟨1000, false, false, false, 0, ⟨0, 0, none⟩⟩ }]
      ⟨⟨false, 319, 873, 2000⟩, false, false, false, true, true, true, true,
       false, ⟨6, 0⟩⟩
      ⟨1000, false, false, false, 0, ⟨0, 0, none⟩⟩ =
      ({ (⟨⟨false, 319, 873, 2000⟩, false, false, false, true, true, true,
          true, false, ⟨6, 0⟩⟩ : ProtocolState) with
           packetSent := true, breakInProgress := false,
           currentPacket := ⟨6, 0⟩ },
       ⟨1000, false, false, false, 0, ⟨0, 0, none⟩⟩,
       [Action.resetPackets, Action.sendMessage, Action.waitForPackets]
         ++ (if (⟨false, 319, 873, 2000⟩ : Capabilities).supportsOob then
               [Action.oobBreak]
             else [Action.marker WBuf.fresh TNS_MARKER_TYPE_INTERRUPT])
         ++ [Action.waitForPackets],
       some (PyExc.callTimeoutExceeded 1000)))
    ∧ (processMessage (fun n => n) (fun _ => false)
      [{ sendRes := StepRes.ok, sentPacket := true,
         recv := { res := StepRes.timeout, packet := ⟨6, 0⟩, refuseLen := 0,
                   refuseMsg := "" },
         queue := [], processRes := StepRes.ok,
         pmsg := ⟨1000, false, false, false, 0, ⟨0, 0, none⟩⟩,
         recovRecv := { res := StepRes.timeout, packet := ⟨6, 0⟩,
                        refuseLen := 0, refuseMsg := "" },
         flushProcessRes := StepRes.ok,
         flushPmsg := ⟨1000, false, false, false, 0, ⟨0, 0, none⟩⟩,
         breakRecv := ⟨StepRes.ok, ⟨6, 0⟩, 0, ""⟩,
         breakProcessRes := StepRes.ok,
         breakPmsg := ⟨1000, false, false, false, 0, ⟨0, 0, none⟩⟩ }]
      ⟨⟨false, 319, 873, 2000⟩, false, false, false, true, true, true, true,
       false, ⟨6, 0⟩⟩
      ⟨1000, false, false, false, 0, ⟨0, 0, none⟩⟩ =
      ({ (⟨⟨false, 319, 873, 2000⟩, false, false, false, true, true, true,
          true, false, ⟨6, 0⟩⟩ : ProtocolState) with
           packetSent := true, breakInProgress := true,
           transport := false, readBufTransport := false,
           readBufInnerTransport := false, writeBufTransport := false },
       ⟨1000, false, false, false, 0, ⟨0, 0, none⟩⟩,
       [Action.resetPackets, Action.sendMessage, Action.waitForPackets]
         ++ (if (⟨false, 319, 873, 2000⟩ : Capabilities).supportsOob then
               [Action.oobBreak]
             else [Action.marker WBuf.fresh TNS_MARKER_TYPE_INTERRUPT])
         ++ [Action.waitForPackets, Action.disconnect],
       some (PyExc.connectionClosed
         "socket timed out while recovering from previous socket timeout"))) :=
  processMessage_timeout_recovery (fun n => n) (fun _ => false)
    ⟨⟨false, 319, 873, 2000⟩, false, false, false, true, true, true, true,
     false, ⟨6, 0⟩⟩
    ⟨1000, false, false, false, 0, ⟨0, 0, none⟩⟩ [] ⟨6, 0⟩ ⟨6, 0⟩ true 0 0
    "" "" ⟨1000, false, false, false, 0, ⟨0, 0, none⟩⟩
    ⟨1000, false, false, false, 0, ⟨0, 0, none⟩⟩
    ⟨1000, false, false, false, 0, ⟨0, 0, none⟩⟩
    ⟨StepRes.ok, ⟨6, 0⟩, 0, ""⟩ StepRes.ok StepRes.ok StepRes.ok
    rfl rfl (by decide) (by decide)

/-- C2: when an attempt of `_process_message` completes with a server
error recorded and the codec set the retry flag, the engine clears the
error and re-enters `_process_message` for the same message — the result
is exactly that of the re-entered call, with the attempt's trace
prefixed (first conjunct); when the retry flag is not set it raises an
exception of the class computed by `get_exception_class` from the Oracle
error number, carrying the error's code, offset and message (second
conjunct). -/
theorem processMessage_retry_and_raise (getExc : Nat → Nat)
    (isDead : Nat → Bool) (e : AttemptEnv) (rest : List AttemptEnv)
    (s : ProtocolState) (m : Msg)
    (h1 : (attemptPhase e s m).2.2.2 = none)
    (h2 : (attemptPhase e s m).2.1.errorOccurred = true) :
    ((attemptPhase e s m).2.1.retry = true →
      processMessage getExc isDead (e :: rest) s m =
        ((processMessage getExc isDead rest (attemptPhase e s m).1
            { (attemptPhase e s m).2.1 with errorOccurred := false }).1,
         (processMessage getExc isDead rest (attemptPhase e s m).1
            { (attemptPhase e s m).2.1 with errorOccurred := false }).2.1,
         (attemptPhase e s m).2.2.1
           ++ (processMessage getExc isDead rest (attemptPhase e s m).1
                { (attemptPhase e s m).2.1 with errorOccurred := false }).2.2.1,
         (processMessage getExc isDead rest (attemptPhase e s m).1
            { (attemptPhase e s m).2.1 with errorOccurred := false }).2.2.2))
    ∧ ((attemptPhase e s m).2.1.retry = false →
      (processMessage getExc isDead (e :: rest) s m).2.2.2 =
        some (PyExc.oraError (attemptPhase e s m).2.1.errorInfo.num
          (attemptPhase e s m).2.1.errorInfo.pos
          (attemptPhase e s m).2.1.errorInfo.message
          (getExc (attemptPhase e s m).2.1.errorInfo.num))) := by
  constructor
  · intro h3
    rcases hA : attemptPhase e s m with ⟨s1, m1, tr1, exc1⟩
    rw [hA] at h1 h2 h3
    simp only at h1 h2 h3
    subst h1
    conv_lhs => rw [processMessage]
    rw [hA]
    simp only [h2, h3, if_true]
  · intro h3
    rcases hA : attemptPhase e s m with ⟨s1, m1, tr1, exc1⟩
    rw [hA] at h1 h2 h3
    simp only at h1 h2 h3
    subst h1
    conv_lhs => rw [processMessage]
    rw [hA]
    simp only [h2, h3, if_true, Bool.false_eq_true, if_false]

/-- C2, witness: the theorem applied to an attempt whose codec records
Oracle error 4068 with the retry flag set (first conjunct) and to one
recording Oracle error 942 without it (second conjunct). -/
theorem processMessage_retry_and_raise_witness :
    ((attemptPhase
        ⟨StepRes.ok, true, ⟨StepRes.ok, ⟨6, 0⟩, 0, ""⟩, [], StepRes.ok,
         ⟨1000, true, true, false, 0, ⟨4068, 0, some "existing state of packages has been discarded"⟩⟩,
         ⟨StepRes.ok, ⟨6, 0⟩, 0, ""⟩, StepRes.ok,
         ⟨1000, false, false, false, 0, ⟨0, 0, none⟩⟩,
         ⟨StepRes.ok, ⟨6, 0⟩, 0, ""⟩, StepRes.ok,
         ⟨1000, false, false, false, 0, ⟨0, 0, none⟩⟩⟩
        ⟨⟨false, 319, 873, 2000⟩, false, false, false, true, true, true, true,
         false, ⟨6, 0⟩⟩
        ⟨1000, false, false, false, 0, ⟨0, 0, none⟩⟩).2.1.retry = true)
    ∧ ((attemptPhase
        ⟨StepRes.ok, true, ⟨StepRes.ok, ⟨6, 0⟩, 0, ""⟩, [], StepRes.ok,
         ⟨1000, true, false, false, 0, ⟨942, 10, some "table or view does not exist"⟩⟩,
         ⟨StepRes.ok, ⟨6, 0⟩, 0, ""⟩, StepRes.ok,
         ⟨1000, false, false, false, 0, ⟨0, 0, none⟩⟩,
         ⟨StepRes.ok, ⟨6, 0⟩, 0, ""⟩, StepRes.ok,
         ⟨1000, false, false, false, 0, ⟨0, 0, none⟩⟩⟩
        ⟨⟨false, 319, 873, 2000⟩, false, false, false, true, true, true, true,
         false, ⟨6, 0⟩⟩
        ⟨1000, false, false, false, 0, ⟨0, 0, none⟩⟩).2.1.retry = false)
    ∧ ((processMessage (fun n => n + 7) (fun _ => false)
        [⟨StepRes.ok, true, ⟨StepRes.ok, ⟨6, 0⟩, 0, ""⟩, [], StepRes.ok,
          ⟨1000, true, false, false, 0, ⟨942, 10, some "table or view does not exist"⟩⟩,
          ⟨StepRes.ok, ⟨6, 0⟩, 0, ""⟩, StepRes.ok,
          ⟨1000, false, false, false, 0, ⟨0, 0, none⟩⟩,
          ⟨StepRes.ok, ⟨6, 0⟩, 0, ""⟩, StepRes.ok,
          ⟨1000, false, false, false, 0, ⟨0, 0, none⟩⟩⟩]
        ⟨⟨false, 319, 873, 2000⟩, false, false, false, true, true, true, true,
         false, ⟨6, 0⟩⟩
        ⟨1000, false, false, false, 0, ⟨0, 0, none⟩⟩).2.2.2 =
      some (PyExc.oraError 942 10 (some "table or view does not exist")
        (942 + 7))) := by
  refine ⟨by decide, by decide, ?_⟩
  exact (processMessage_retry_and_raise (fun n => n + 7) (fun _ => false)
    ⟨StepRes.ok, true, ⟨StepRes.ok, ⟨6, 0⟩, 0, ""⟩, [], StepRes.ok,
     ⟨1000, true, false, false, 0, ⟨942, 10, some "table or view does not exist"⟩⟩,
     ⟨StepRes.ok, ⟨6, 0⟩, 0, ""⟩, StepRes.ok,
     ⟨1000, false, false, false, 0, ⟨0, 0, none⟩⟩,
     ⟨StepRes.ok, ⟨6, 0⟩, 0, ""⟩, StepRes.ok,
     ⟨1000, false, false, false, 0, ⟨0, 0, none⟩⟩⟩ []
    ⟨⟨false, 319, 873, 2000⟩, false, false, false, true, true, true, true,
     false, ⟨6, 0⟩⟩
    ⟨1000, false, false, false, 0, ⟨0, 0, none⟩⟩
    (by decide) (by decide)).2 (by decide)

/-- C5: when `_process_message` surfaces a server error classified as
session-dead, it runs `_force_close` before raising — the outcome is the
force-closed state together with the trace extended by the disconnect,
and the raised exception carries the error's class, code, offset and
message (first conjunct); `_force_close` on a live transport detaches it
from the protocol object and from both the read and write buffers and
disconnects the socket (second conjunct). -/
theorem processMessage_session_dead_force_close (getExc : Nat → Nat)
    (isDead : Nat → Bool) (e : AttemptEnv) (rest : List AttemptEnv)
    (s : ProtocolState) (m : Msg)
    (h1 : (attemptPhase e s m).2.2.2 = none)
    (h2 : (attemptPhase e s m).2.1.errorOccurred = true)
    (h3 : (attemptPhase e s m).2.1.retry = false)
    (h4 : isDead (attemptPhase e s m).2.1.errorInfo.num = true) :
    (processMessage getExc isDead (e :: rest) s m =
      ((forceClose (attemptPhase e s m).1).1,
       (attemptPhase e s m).2.1,
       (attemptPhase e s m).2.2.1 ++ (forceClose (attemptPhase e s m).1).2,
       some (PyExc.oraError (attemptPhase e s m).2.1.errorInfo.num
         (attemptPhase e s m).2.1.errorInfo.pos
         (attemptPhase e s m).2.1.errorInfo.message
         (getExc (attemptPhase e s m).2.1.errorInfo.num))))
    ∧ ∀ st : ProtocolState, st.transport = true →
        forceClose st =
          ({ st with transport := false, readBufTransport := false,
                     readBufInnerTransport := false,
                     writeBufTransport := false },
           [Action.disconnect]) := by
  constructor
  · rcases hA : attemptPhase e s m with ⟨s1, m1, tr1, exc1⟩
    rw [hA] at h1 h2 h3 h4
    simp only at h1 h2 h3 h4
    subst h1
    conv_lhs => rw [processMessage]
    rw [hA]
    simp [h2, h3, h4]
  · intro st htr
    simp [forceClose, htr]

/-- C5, witness: the theorem applied to an attempt surfacing Oracle error
3113 ("end-of-file on communication channel"), classified as
session-dead. -/
theorem processMessage_session_dead_force_close_witness :
    (processMessage (fun _ => 1) (fun n => n == 3113)
      [⟨StepRes.ok, true, ⟨StepRes.ok, ⟨6, 0⟩, 0, ""⟩, [], StepRes.ok,
        ⟨1000, true, false, false, 0, ⟨3113, 0, some "end-of-file on communication channel"⟩⟩,
        ⟨StepRes.ok, ⟨6, 0⟩, 0, ""⟩, StepRes.ok,
        ⟨1000, false, false, false, 0, ⟨0, 0, none⟩⟩,
        ⟨StepRes.ok, ⟨6, 0⟩, 0, ""⟩, StepRes.ok,
        ⟨1000, false, false, false, 0, ⟨0, 0, none⟩⟩⟩]
      ⟨⟨false, 319, 873, 2000⟩, false, false, false, true, true, true, true,
       false, ⟨6, 0⟩⟩
      ⟨1000, false, false, false, 0, ⟨0, 0, none⟩⟩ =
      ((forceClose (attemptPhase
          ⟨StepRes.ok, true, ⟨StepRes.ok, ⟨6, 0⟩, 0, ""⟩, [], StepRes.ok,
           ⟨1000, true, false, false, 0, ⟨3113, 0, some "end-of-file on communication channel"⟩⟩,
           ⟨StepRes.ok, ⟨6, 0⟩, 0, ""⟩, StepRes.ok,
           ⟨1000, false, false, false, 0, ⟨0, 0, none⟩⟩,
           ⟨StepRes.ok, ⟨6, 0⟩, 0, ""⟩, StepRes.ok,
           ⟨1000, false, false, false, 0, ⟨0, 0, none⟩⟩⟩
          ⟨⟨false, 319, 873, 2000⟩, false, false, false, true, true, true,
           true, false, ⟨6, 0⟩⟩
          ⟨1000, false, false, false, 0, ⟨0, 0, none⟩⟩).1).1,
       (attemptPhase
          ⟨StepRes.ok, true, ⟨StepRes.ok, ⟨6, 0⟩, 0, ""⟩, [], StepRes.ok,
           ⟨1000, true, false, false, 0, ⟨3113, 0, some "end-of-file on communication channel"⟩⟩,
           ⟨StepRes.ok, ⟨6, 0⟩, 0, ""⟩, StepRes.ok,
           ⟨1000, false, false, false, 0, ⟨0, 0, none⟩⟩,
           ⟨StepRes.ok, ⟨6, 0⟩, 0, ""⟩, StepRes.ok,
           ⟨1000, false, false, false, 0, ⟨0, 0, none⟩⟩⟩
          ⟨⟨false, 319, 873, 2000⟩, false, false, false, true, true, true,
           true, false, ⟨6, 0⟩⟩
          ⟨1000, false, false, false, 0, ⟨0, 0, none⟩⟩).2.1,
       (attemptPhase
          ⟨StepRes.ok, true, ⟨StepRes.ok, ⟨6, 0⟩, 0, ""⟩, [], StepRes.ok,
           ⟨1000, true, false, false, 0, ⟨3113, 0, some "end-of-file on communication channel"⟩⟩,
           ⟨StepRes.ok, ⟨6, 0⟩, 0, ""⟩, StepRes.ok,
           ⟨1000, false, false, false, 0, ⟨0, 0, none⟩⟩,
           ⟨StepRes.ok, ⟨6, 0⟩, 0, ""⟩, StepRes.ok,
           ⟨1000, false, false, false, 0, ⟨0, 0, none⟩⟩⟩
          ⟨⟨false, 319, 873, 2000⟩, false, false, false, true, true, true,
           true, false, ⟨6, 0⟩⟩
          ⟨1000, false, false, false, 0, ⟨0, 0, none⟩⟩).2.2.1
         ++ (forceClose (attemptPhase
          ⟨StepRes.ok, true, ⟨StepRes.ok, ⟨6, 0⟩, 0, ""⟩, [], StepRes.ok,
           ⟨1000, true, false, false, 0, ⟨3113, 0, some "end-of-file on communication channel"⟩⟩,
           ⟨StepRes.ok, ⟨6, 0⟩, 0, ""⟩, StepRes.ok,
           ⟨1000, false, false, false, 0, ⟨0, 0, none⟩⟩,
           ⟨StepRes.ok, ⟨6, 0⟩, 0, ""⟩, StepRes.ok,
           ⟨1000, false, false, false, 0, ⟨0, 0, none⟩⟩⟩
          ⟨⟨false, 319, 873, 2000⟩, false, false, false, true, true, true,
           true, false, ⟨6, 0⟩⟩
          ⟨1000, false, false, false, 0, ⟨0, 0, none⟩⟩).1).2,
       some (PyExc.oraError 3113 0
         (some "end-of-file on communication channel") 1)))
    ∧ (forceClose
        ⟨⟨false, 319, 873, 2000⟩, false, false, false, true, true, true, true,
         true, ⟨6, 0⟩⟩ =
      ({ (⟨⟨false, 319, 873, 2000⟩, false, false, false, true, true, true,
          true, true, ⟨6, 0⟩⟩ : ProtocolState) with
           transport := false, readBufTransport := false,
           readBufInnerTransport := false, writeBufTransport := false },
       [Action.disconnect])) :=
  ⟨(processMessage_session_dead_force_close (fun _ => 1) (fun n => n == 3113)
      ⟨StepRes.ok, true, ⟨StepRes.ok, ⟨6, 0⟩, 0, ""⟩, [], StepRes.ok,
       ⟨1000, true, false, false, 0, ⟨3113, 0, some "end-of-file on communication channel"⟩⟩,
       ⟨StepRes.ok, ⟨6, 0⟩, 0, ""⟩, StepRes.ok,
       ⟨1000, false, false, false, 0, ⟨0, 0, none⟩⟩,
       ⟨StepRes.ok, ⟨6, 0⟩, 0, ""⟩, StepRes.ok,
       ⟨1000, false, false, false, 0, ⟨0, 0, none⟩⟩⟩ []
      ⟨⟨false, 319, 873, 2000⟩, false, false, false, true, true, true, true,
       false, ⟨6, 0⟩⟩
      ⟨1000, false, false, false, 0, ⟨0, 0, none⟩⟩
      (by decide) (by decide) (by decide) (by decide)).1,
   (processMessage_session_dead_force_close (fun _ => 1) (fun n => n == 3113)
      ⟨StepRes.ok, true, ⟨StepRes.ok, ⟨6, 0⟩, 0, ""⟩, [], StepRes.ok,
       ⟨1000, true, false, false, 0, ⟨3113, 0, some "end-of-file on communication channel"⟩⟩,
       ⟨StepRes.ok, ⟨6, 0⟩, 0, ""⟩, StepRes.ok,
       ⟨1000, false, false, false, 0, ⟨0, 0, none⟩⟩,
       ⟨StepRes.ok, ⟨6, 0⟩, 0, ""⟩, StepRes.ok,
       ⟨1000, false, false, false, 0, ⟨0, 0, none⟩⟩⟩ []
      ⟨⟨false, 319, 873, 2000⟩, false, false, false, true, true, true, true,
       false, ⟨6, 0⟩⟩
      ⟨1000, false, false, false, 0, ⟨0, 0, none⟩⟩
      (by decide) (by decide) (by decide) (by decide)).2
     ⟨⟨false, 319, 873, 2000⟩, false, false, false, true, true, true, true,
      true, ⟨6, 0⟩⟩ rfl⟩

/-- C10: after `_receive_packet` consumes a REFUSE packet the write
buffer's `_packet_sent` flag is false and the refusal message is recorded
(first conjunct); consequently, when the codec then raises an exception,
the exception path of `_process_message` sends no BREAK marker and runs
no reset drain, whatever the connect-phase flag and transports — the
whole trace is the plain body trace (second conjunct). -/
theorem refuse_clears_packet_sent (getExc : Nat → Nat) (isDead : Nat → Bool)
    (s : ProtocolState) (m : Msg) (q : List Packet) (pR : Packet)
    (sent : Bool) (rl : Nat) (rs : String) (pm fp bm : Msg)
    (rr brv : RecvEnv) (fr bpr : StepRes)
    (hpt : pR.packetType = TNS_PACKET_TYPE_REFUSE) :
    (receivePacketEngine s m
      { res := StepRes.ok, packet := pR, refuseLen := rl, refuseMsg := rs }
      q =
      ({ s with currentPacket := pR, packetSent := false },
       { m with errorInfo := { m.errorInfo with
           message := if rl == 0 then none else some rs } },
       q, [Action.waitForPackets], none))
    ∧ (processMessage getExc isDead
      [{ sendRes := StepRes.ok, sentPacket := sent,
         recv := { res := StepRes.ok, packet := pR, refuseLen := rl,
                   refuseMsg := rs },
         queue := q, processRes := StepRes.exc, pmsg := pm,
         recovRecv := rr, flushProcessRes := fr, flushPmsg := fp,
         breakRecv := brv, breakProcessRes := bpr, breakPmsg := bm }] s m =
      ({ s with currentPacket := pR, packetSent := false },
       { m with errorInfo := { m.errorInfo with
           message := if rl == 0 then none else some rs } },
       [Action.resetPackets, Action.sendMessage, Action.waitForPackets,
        Action.processMsg],
       some PyExc.otherExc)) := by
  constructor
  · simp [receivePacketEngine, hpt, TNS_PACKET_TYPE_REFUSE,
          TNS_PACKET_TYPE_MARKER]
  · unfold processMessage attemptPhase runBody
    simp [receivePacketEngine, hpt, TNS_PACKET_TYPE_REFUSE,
          TNS_PACKET_TYPE_MARKER]

/-- C10, witness: the theorem applied to a listener refusal (REFUSE
packet with a 21-byte message) received while still in the connect
phase with a request written. -/
theorem refuse_clears_packet_sent_witness :
    (receivePacketEngine
      ⟨⟨false, 319, 873, 2000⟩, true, false, false, true, true, true, true,
       true, ⟨1, 0⟩⟩
      ⟨0, false, false, false, 0, ⟨0, 0, none⟩⟩
      { res := StepRes.ok, packet := ⟨4, 0⟩, refuseLen := 21,
        refuseMsg := "listener refused it" } [] =
      ({ (⟨⟨false, 319, 873, 2000⟩, true, false, false, true, true, true,
          true, true, ⟨1, 0⟩⟩ : ProtocolState) with
           currentPacket := ⟨4, 0⟩, packetSent := false },
       { (⟨0, false, false, false, 0, ⟨0, 0, none⟩⟩ : Msg) with
           errorInfo := { (⟨0, 0, none⟩ : ErrorInfo) with
             message := if (21 : Nat) == 0 then none
               else some "listener refused it" } },
       [], [Action.waitForPackets], none))
    ∧ (processMessage (fun n => n) (fun _ => false)
      [{ sendRes := StepRes.ok, sentPacket := true,
         recv := { res := StepRes.ok, packet := ⟨4, 0⟩, refuseLen := 21,
                   refuseMsg := "listener refused it" },
         queue := [], processRes := StepRes.exc,
         pmsg := ⟨0, false, false, false, 0, ⟨0, 0, none⟩⟩,
         recovRecv := ⟨StepRes.ok, ⟨6, 0⟩, 0, ""⟩,
         flushProcessRes := StepRes.ok,
         flushPmsg := ⟨0, false, false, false, 0, ⟨0, 0, none⟩⟩,
         breakRecv := ⟨StepRes.ok, ⟨6, 0⟩, 0, ""⟩,
         breakProcessRes := StepRes.ok,
         breakPmsg := ⟨0, false, false, false, 0, ⟨0, 0, none⟩⟩ }]
      ⟨⟨false, 319, 873, 2000⟩, true, false, false, true, true, true, true,
       true, ⟨1, 0⟩⟩
      ⟨0, false, false, false, 0, ⟨0, 0, none⟩⟩ =
      ({ (⟨⟨false, 319, 873, 2000⟩, true, false, false, true, true, true,
          true, true, ⟨1, 0⟩⟩ : ProtocolState) with
           currentPacket := ⟨4, 0⟩, packetSent := false },
       { (⟨0, false, false, false, 0, ⟨0, 0, none⟩⟩ : Msg) with
           errorInfo := { (⟨0, 0, none⟩ : ErrorInfo) with
             message := if (21 : Nat) == 0 then none
               else some "listener refused it" } },
       [Action.resetPackets, Action.sendMessage, Action.waitForPackets,
        Action.processMsg],
       some PyExc.otherExc)) :=
  refuse_clears_packet_sent (fun n => n) (fun _ => false)
    ⟨⟨false, 319, 873, 2000⟩, true, false, false, true, true, true, true,
     true, ⟨1, 0⟩⟩
    ⟨0, false, false, false, 0, ⟨0, 0, none⟩⟩ [] ⟨4, 0⟩ true 21
    "listener refused it"
    ⟨0, false, false, false, 0, ⟨0, 0, none⟩⟩
    ⟨0, false, false, false, 0, ⟨0, 0, none⟩⟩
    ⟨0, false, false, false, 0, ⟨0, 0, none⟩⟩
    ⟨StepRes.ok, ⟨6, 0⟩, 0, ""⟩ ⟨StepRes.ok, ⟨6, 0⟩, 0, ""⟩
    StepRes.ok StepRes.ok rfl

theorem connectPhaseOneLoop_head (parseCS : List Char → List Char × Nat)
    (protocol : String) (it : P1Iter) (rest : List P1Iter)
    (h : List Char) (p : Nat) (cs : List Char) (pf : Nat) :
    ∃ tr res, connectPhaseOneLoop parseCS protocol (it :: rest) none h p cs pf
      = (P1Action.processConnect ⟨h, p, cs, pf⟩ :: tr, res) := by
  rcases hrd : it.redirectData with _ | rd
  · by_cases hacc : (it.packetType == TNS_PACKET_TYPE_ACCEPT) = true
    · refine ⟨[], Except.ok ⟨h, p, cs, pf⟩, ?_⟩
      simp [connectPhaseOneLoop, hrd, hacc]
    · by_cases hts : (protocol == "tcps") = true
      · rcases hX : connectPhaseOneLoop parseCS protocol rest
            (some ⟨h, p, cs, pf⟩) h p cs it.currentPacketFlags with ⟨tr1, res1⟩
        refine ⟨(if (it.currentPacketFlags &&& TNS_PACKET_FLAG_TLS_RENEG) != 0
                 then [P1Action.renegotiateTls] else []) ++ tr1, res1, ?_⟩
        by_cases hfl : ((it.currentPacketFlags &&& TNS_PACKET_FLAG_TLS_RENEG)
            != 0) = true <;>
          simp [connectPhaseOneLoop, hrd, hacc, hts, hfl, hX]
      · rcases hX : connectPhaseOneLoop parseCS protocol rest
            (some ⟨h, p, cs, pf⟩) h p cs pf with ⟨tr1, res1⟩
        refine ⟨tr1, res1, ?_⟩
        simp [connectPhaseOneLoop, hrd, hacc, hts, hX]
  · rcases hf : rd.findIdx? (fun c => c == nulChar) with _ | pos
    · exact ⟨[], Except.error (PyExc.invalidRedirectData rd),
        by simp [connectPhaseOneLoop, hrd, hf]⟩
    · by_cases hts : (protocol == "tcps") = true
      · rcases hX : connectPhaseOneLoop parseCS protocol rest none
            (parseCS (rd.take pos)).1 (parseCS (rd.take pos)).2
            (rd.drop (pos + 1)) it.currentPacketFlags with ⟨tr1, res1⟩
        refine ⟨[P1Action.tcpConnect (parseCS (rd.take pos)).1
                   (parseCS (rd.take pos)).2]
            ++ (if (it.currentPacketFlags &&& TNS_PACKET_FLAG_TLS_RENEG) != 0
                then [P1Action.renegotiateTls] else []) ++ tr1, res1, ?_⟩
        by_cases hfl : ((it.currentPacketFlags &&& TNS_PACKET_FLAG_TLS_RENEG)
            != 0) = true <;>
          simp [connectPhaseOneLoop, hrd, hf, hts, hfl, hX]
      · rcases hX : connectPhaseOneLoop parseCS protocol rest none
            (parseCS (rd.take pos)).1 (parseCS (rd.take pos)).2
            (rd.drop (pos + 1)) TNS_PACKET_FLAG_REDIRECT with ⟨tr1, res1⟩
        refine ⟨[P1Action.tcpConnect (parseCS (rd.take pos)).1
                   (parseCS (rd.take pos)).2] ++ tr1, res1, ?_⟩
        simp [connectPhaseOneLoop, hrd, hf, hts, hX]

/-- C3, counterexample: on a TCPS address the claim fails — after the
redirect branch assigns the REDIRECT packet flag, the TCPS block of
protocol.pyx line 234 overwrites the local packet flags with the current
packet's flags, so the replayed connect message carries those flags
(here 0) instead of `TNS_PACKET_FLAG_REDIRECT`. -/
theorem connectPhaseOne_redirect_tcps_flags_lost :
    (connectPhaseOneLoop (fun _ => (['h', '2'], 1522)) "tcps"
        [⟨some ['A', Char.ofNat 0, 'B'], 5, 0⟩, ⟨none, 2, 0⟩] none
        ['h', '1'] 1521 ['C'] 0).1 =
      [P1Action.processConnect ⟨['h', '1'], 1521, ['C'], 0⟩,
       P1Action.tcpConnect ['h', '2'] 1522,
       P1Action.processConnect ⟨['h', '2'], 1522, ['B'], 0⟩]
    ∧ (0 : Nat) ≠ TNS_PACKET_FLAG_REDIRECT := by
  constructor
  · rfl
  · decide

/-- C3, amended: when the response to a connect message carries redirect
data with a NUL byte at first position `pos`, the engine establishes a
new TCP connection to the host and port parsed from the text before the
NUL and resends a fresh connect message whose connect string is the text
after the NUL; on a plain TCP address that message carries the REDIRECT
packet flag (first conjunct), while on a TCPS address the TCPS block
overwrites the flags with the current packet's flags before the replay
(second conjunct); redirect data without any NUL byte fails with
`ERR_INVALID_REDIRECT_DATA`, for every protocol (third conjunct). -/
theorem connectPhaseOne_redirect (parseCS : List Char → List Char × Nat)
    (it1 it2 : P1Iter) (rest : List P1Iter) (rd : List Char)
    (h : List Char) (p : Nat) (cs : List Char) (pf : Nat)
    (hrd : it1.redirectData = some rd) :
    (∀ pos : Nat, rd.findIdx? (fun c => c == nulChar) = some pos →
      ∃ tr res,
        connectPhaseOneLoop parseCS "tcp" (it1 :: it2 :: rest) none h p cs pf
          = (P1Action.processConnect ⟨h, p, cs, pf⟩
              :: P1Action.tcpConnect (parseCS (rd.take pos)).1
                   (parseCS (rd.take pos)).2
              :: P1Action.processConnect
                   ⟨(parseCS (rd.take pos)).1, (parseCS (rd.take pos)).2,
                    rd.drop (pos + 1), TNS_PACKET_FLAG_REDIRECT⟩
              :: tr, res))
    ∧ (∀ pos : Nat, rd.findIdx? (fun c => c == nulChar) = some pos →
      ∃ tr res,
        connectPhaseOneLoop parseCS "tcps" (it1 :: it2 :: rest) none h p cs pf
          = (P1Action.processConnect ⟨h, p, cs, pf⟩
              :: P1Action.tcpConnect (parseCS (rd.take pos)).1
                   (parseCS (rd.take pos)).2
              :: ((if (it1.currentPacketFlags &&& TNS_PACKET_FLAG_TLS_RENEG)
                      != 0 then
                    [P1Action.renegotiateTls]
                  else [])
                 ++ P1Action.processConnect
                      ⟨(parseCS (rd.take pos)).1, (parseCS (rd.take pos)).2,
                       rd.drop (pos + 1), it1.currentPacketFlags⟩
                 :: tr), res))
    ∧ ∀ protocol : String, rd.findIdx? (fun c => c == nulChar) = none →
      connectPhaseOneLoop parseCS protocol (it1 :: rest) none h p cs pf =
        ([P1Action.processConnect ⟨h, p, cs, pf⟩],
         Except.error (PyExc.invalidRedirectData rd)) := by
  refine ⟨?_, ?_, ?_⟩
  · intro pos hfind
    obtain ⟨tr2, res2, hh⟩ := connectPhaseOneLoop_head parseCS "tcp" it2 rest
      (parseCS (rd.take pos)).1 (parseCS (rd.take pos)).2
      (rd.drop (pos + 1)) TNS_PACKET_FLAG_REDIRECT
    refine ⟨tr2, res2, ?_⟩
    have hts : (("tcp" : String) == "tcps") = false := rfl
    revert hh
    generalize it2 :: rest = iters2
    intro hh
    simp [connectPhaseOneLoop, hrd, hfind, hh, hts]
  · intro pos hfind
    obtain ⟨tr2, res2, hh⟩ := connectPhaseOneLoop_head parseCS "tcps" it2 rest
      (parseCS (rd.take pos)).1 (parseCS (rd.take pos)).2
      (rd.drop (pos + 1)) it1.currentPacketFlags
    refine ⟨tr2, res2, ?_⟩
    have hts : (("tcps" : String) == "tcps") = true := rfl
    revert hh
    generalize it2 :: rest = iters2
    intro hh
    by_cases hfl : ((it1.currentPacketFlags &&& TNS_PACKET_FLAG_TLS_RENEG)
        != 0) = true <;>
      simp [connectPhaseOneLoop, hrd, hfind, hh, hts, hfl]
  · intro protocol hfind
    simp [connectPhaseOneLoop, hrd, hfind]

/-- C3, witness: redirect data `A\0B` splits at the NUL — on TCP the
engine reconnects to the address parsed from `A` and resends a connect
message carrying `B` with the REDIRECT flag, on TCPS the resent message
carries the current packet's flags (0) — while redirect data `AB`
without a NUL fails with `ERR_INVALID_REDIRECT_DATA`. -/
theorem connectPhaseOne_redirect_witness :
    ((connectPhaseOneLoop (fun _ => (['h', '2'], 1522)) "tcp"
        [⟨some ['A', Char.ofNat 0, 'B'], 5, 0⟩, ⟨none, 2, 0⟩] none
        ['h', '1'] 1521 ['C'] 0).1.take 3 =
      [P1Action.processConnect ⟨['h', '1'], 1521, ['C'], 0⟩,
       P1Action.tcpConnect ['h', '2'] 1522,
       P1Action.processConnect
         ⟨['h', '2'], 1522, ['B'], TNS_PACKET_FLAG_REDIRECT⟩])
    ∧ ((connectPhaseOneLoop (fun _ => (['h', '2'], 1522)) "tcps"
        [⟨some ['A', Char.ofNat 0, 'B'], 5, 0⟩, ⟨none, 2, 0⟩] none
        ['h', '1'] 1521 ['C'] 0).1.take 3 =
      [P1Action.processConnect ⟨['h', '1'], 1521, ['C'], 0⟩,
       P1Action.tcpConnect ['h', '2'] 1522,
       P1Action.processConnect ⟨['h', '2'], 1522, ['B'], 0⟩])
    ∧ (connectPhaseOneLoop (fun _ => (['h', '2'], 1522)) "tcp"
        [⟨some ['A', 'B'], 5, 0⟩] none ['h', '1'] 1521 ['C'] 0 =
      ([P1Action.processConnect ⟨['h', '1'], 1521, ['C'], 0⟩],
       Except.error (PyExc.invalidRedirectData ['A', 'B']))) := by
  refine ⟨?_, ?_, ?_⟩
  · obtain ⟨tr, res, hh⟩ :=
      (connectPhaseOne_redirect (fun _ => (['h', '2'], 1522))
        ⟨some ['A', Char.ofNat 0, 'B'], 5, 0⟩ ⟨none, 2, 0⟩ []
        ['A', Char.ofNat 0, 'B'] ['h', '1'] 1521 ['C'] 0 rfl).1 1 (by decide)
    rw [hh]
    simp
  · obtain ⟨tr, res, hh⟩ :=
      (connectPhaseOne_redirect (fun _ => (['h', '2'], 1522))
        ⟨some ['A', Char.ofNat 0, 'B'], 5, 0⟩ ⟨none, 2, 0⟩ []
        ['A', Char.ofNat 0, 'B'] ['h', '1'] 1521 ['C'] 0 rfl).2.1 1 (by decide)
    rw [hh]
    simp
  · exact (connectPhaseOne_redirect (fun _ => (['h', '2'], 1522))
      ⟨some ['A', 'B'], 5, 0⟩ ⟨none, 2, 0⟩ [] ['A', 'B']
      ['h', '1'] 1521 ['C'] 0 rfl).2.2 "tcp" (by decide)

/-- C8: a `ConnectionCookie` is written at most once by
`_connect_phase_two` — a cookie received with `populated` already set is
only read (the combined cookie message collapses phase two) and none of
its fields change, provided the server honours it (first conjunct);
a cookie present but not yet populated has all its fields
(protocol version, banner, charsets, flags and capability vectors)
assigned and `populated` set to true in the same step (second
conjunct). -/
theorem connectionCookie_written_once (caps : Capabilities) (env : P2Env)
    (c c2 : ConnectionCookie)
    (hver : ¬ caps.protocolVersion < TNS_VERSION_MIN_ACCEPTED)
    (hpop : c.populated = true)
    (hacc : env.cookiePopulatedAfterSend = true)
    (hpop2 : c2.populated = false) :
    (connectPhaseTwo caps env (some c) =
      ((if caps.supportsOob
            && decide (TNS_VERSION_MIN_OOB_CHECK ≤ caps.protocolVersion) then
          [P2Action.oobCheckBreak, P2Action.oobCheckResetMarker]
        else [])
         ++ [P2Action.processCookieMsg]
         ++ (if env.authResend then [P2Action.processAuthMsg] else []),
       Except.ok (some c)))
    ∧ (connectPhaseTwo caps env (some c2) =
      ((if caps.supportsOob
            && decide (TNS_VERSION_MIN_OOB_CHECK ≤ caps.protocolVersion) then
          [P2Action.oobCheckBreak, P2Action.oobCheckResetMarker]
        else [])
         ++ [P2Action.processProtocolMsg, P2Action.processDataTypesMsg,
             P2Action.processAuthMsg]
         ++ (if env.authResend then [P2Action.processAuthMsg] else []),
       Except.ok (some { populated := true,
                         protocolVersion := env.serverVersion,
                         serverBanner := env.serverBanner,
                         charsetId := caps.charsetId,
                         ncharsetId := caps.ncharsetId,
                         flags := env.serverFlags,
                         compileCaps := env.serverCompileCaps,
                         runtimeCaps := env.serverRuntimeCaps }))) := by
  constructor
  · rcases c with ⟨pop, pv, sb, ci, ni, fl, cc, rc⟩
    simp only at hpop
    subst hpop
    simp [connectPhaseTwo, hver, hacc]
  · rcases c2 with ⟨pop, pv, sb, ci, ni, fl, cc, rc⟩
    simp only at hpop2
    subst hpop2
    simp [connectPhaseTwo, hver]

/-- C8, witness: the theorem applied to a 23ai connection — a populated
cookie is returned unchanged, an unpopulated one comes back with every
field assigned and `populated` true. -/
theorem connectionCookie_written_once_witness :
    (connectPhaseTwo ⟨false, 319, 873, 2000⟩
      ⟨320, ['b'], 7, [1, 2], [3], true, false⟩
      (some ⟨true, 318, ['x'], 870, 2000, 9, [4], [5]⟩) =
      ((if (⟨false, 319, 873, 2000⟩ : Capabilities).supportsOob
            && decide (TNS_VERSION_MIN_OOB_CHECK
                 ≤ (⟨false, 319, 873, 2000⟩ : Capabilities).protocolVersion)
        then [P2Action.oobCheckBreak, P2Action.oobCheckResetMarker]
        else [])
         ++ [P2Action.processCookieMsg]
         ++ (if (⟨320, ['b'], 7, [1, 2], [3], true,
                  false⟩ : P2Env).authResend then
               [P2Action.processAuthMsg]
             else []),
       Except.ok (some ⟨true, 318, ['x'], 870, 2000, 9, [4], [5]⟩)))
    ∧ (connectPhaseTwo ⟨false, 319, 873, 2000⟩
      ⟨320, ['b'], 7, [1, 2], [3], true, false⟩
      (some ⟨false, 0, [], 0, 0, 0, [], []⟩) =
      ((if (⟨false, 319, 873, 2000⟩ : Capabilities).supportsOob
            && decide (TNS_VERSION_MIN_OOB_CHECK
                 ≤ (⟨false, 319, 873, 2000⟩ : Capabilities).protocolVersion)
        then [P2Action.oobCheckBreak, P2Action.oobCheckResetMarker]
        else [])
         ++ [P2Action.processProtocolMsg, P2Action.processDataTypesMsg,
             P2Action.processAuthMsg]
         ++ (if (⟨320, ['b'], 7, [1, 2], [3], true,
                  false⟩ : P2Env).authResend then
               [P2Action.processAuthMsg]
             else []),
       Except.ok (some { populated := true, protocolVersion := 320,
                         serverBanner := ['b'], charsetId := 873,
                         ncharsetId := 2000, flags := 7,
                         compileCaps := [1, 2], runtimeCaps := [3] }))) :=
  connectionCookie_written_once ⟨false, 319, 873, 2000⟩
    ⟨320, ['b'], 7, [1, 2], [3], true, false⟩
    ⟨true, 318, ['x'], 870, 2000, 9, [4], [5]⟩
    ⟨false, 0, [], 0, 0, 0, [], []⟩
    (by decide) rfl rfl rfl

end OracleThin
